import Mathlib

/-!
Shallow embedding of the telegraf `opcua_listener` subscription client:
the point-mapping builder (`plugins/common/opcua/input`), the monitoring-request
translator and the notification processor
(`plugins/inputs/opcua_listener/subscribe_client.go`).

Go `map[string]string` values are modelled as association lists carrying the
map's content (keys pairwise distinct); Go map assignment and lookup are the
functions `mapInsert` and `mlook` below.
-/

namespace OpcuaSpec

/-- Go map lookup `m[k]` on the association-list model: the value of the
\x7bfirst\x7d pair carrying the key, `none` when the key is absent. -/
def mlook {κ α : Type} [DecidableEq κ] (k : κ) : List (κ × α) → Option α
  | [] => none
  | p :: rest => if p.1 = k then some p.2 else mlook k rest

/-- Go map assignment `m[k] = v` on the association-list model: replaces the
value of an existing key in place, otherwise appends the new pair. -/
def mapInsert {κ α : Type} [DecidableEq κ] (m : List (κ × α)) (k : κ) (v : α) :
    List (κ × α) :=
  match m with
  | [] => [(k, v)]
  | p :: rest => if p.1 = k then (k, v) :: rest else p :: mapInsert rest k v

/-- Copying a list of pairs into a Go map by repeated assignment
(`for k, v := range l \x7b m[k] = v \x7d`). -/
def insertAll {κ α : Type} [DecidableEq κ] (init : List (κ × α)) (l : List (κ × α)) :
    List (κ × α) :=
  l.foldl (fun m p => mapInsert m p.1 p.2) init

variable {κ α : Type} [DecidableEq κ]

theorem mlook_mapInsert (m : List (κ × α)) (k k' : κ) (v : α) :
    mlook k (mapInsert m k' v) = if k' = k then some v else mlook k m := by
  induction m with
  | nil => simp [mapInsert, mlook]
  | cons p rest ih =>
    by_cases h : p.1 = k'
    · simp only [mapInsert, h, if_pos rfl]
      by_cases hk : k' = k
      · simp [mlook, hk]
      · simp [mlook, hk, h]
    · simp only [mapInsert, if_neg h]
      by_cases hk : p.1 = k
      · have : ¬ (k' = k) := fun he => h (he ▸ hk)
        simp [mlook, hk, this]
      · simp [mlook, hk, ih]

theorem keys_mapInsert (m : List (κ × α)) (k : κ) (v : α) :
    (mapInsert m k v).map Prod.fst =
      if k ∈ m.map Prod.fst then m.map Prod.fst else m.map Prod.fst ++ [k] := by
  induction m with
  | nil => simp [mapInsert]
  | cons p rest ih =>
    by_cases h : p.1 = k
    · simp [mapInsert, h]
    · have : ¬ (k = p.1) := fun he => h he.symm
      simp [mapInsert, h, ih, this]
      by_cases hmem : k ∈ rest.map Prod.fst <;> simp [hmem, this]

theorem nodup_keys_mapInsert (m : List (κ × α)) (k : κ) (v : α)
    (h : (m.map Prod.fst).Nodup) : ((mapInsert m k v).map Prod.fst).Nodup := by
  rw [keys_mapInsert]
  by_cases hmem : k ∈ m.map Prod.fst
  · simpa [hmem] using h
  · simp only [hmem, if_neg]
    simp [List.nodup_append, h, hmem]

theorem mlook_eq_none_of_not_mem (l : List (κ × α)) (k : κ)
    (h : k ∉ l.map Prod.fst) : mlook k l = none := by
  induction l with
  | nil => rfl
  | cons p rest ih =>
    simp only [List.map_cons, List.mem_cons, not_or] at h
    have : ¬ (p.1 = k) := fun he => h.1 he.symm
    simp [mlook, this, ih h.2]

theorem mem_keys_iff_isSome_mlook (l : List (κ × α)) (k : κ) :
    k ∈ l.map Prod.fst ↔ (mlook k l).isSome := by
  induction l with
  | nil => simp [mlook]
  | cons p rest ih =>
    by_cases h : p.1 = k
    · simp [mlook, h]
    · have : ¬ (k = p.1) := fun he => h he.symm
      simp [mlook, h, this, ih]

theorem mlook_insertAll (l init : List (κ × α)) (k : κ)
    (hl : (l.map Prod.fst).Nodup) :
    mlook k (insertAll init l) =
      match mlook k l with
      | some v => some v
      | none => mlook k init := by
  induction l generalizing init with
  | nil => simp [insertAll, mlook]
  | cons p rest ih =>
    simp only [List.map_cons, List.nodup_cons] at hl
    have step : insertAll init (p :: rest) = insertAll (mapInsert init p.1 p.2) rest := rfl
    rw [step, ih _ hl.2]
    by_cases h : p.1 = k
    · have hnone : mlook k rest = none := by
        apply mlook_eq_none_of_not_mem
        intro hmem
        exact hl.1 (h ▸ hmem)
      simp [mlook, h, hnone, mlook_mapInsert]
    · simp [mlook, h, mlook_mapInsert]

theorem nodup_keys_insertAll (l init : List (κ × α))
    (h : (init.map Prod.fst).Nodup) : ((insertAll init l).map Prod.fst).Nodup := by
  induction l generalizing init with
  | nil => exact h
  | cons p rest ih => exact ih _ (nodup_keys_mapInsert _ _ _ h)

/-- Lexicographic strict comparison of character lists by codepoint, the order
`sort.Strings` sorts by (UTF-8 byte order and codepoint order agree). -/
def charListLt : List Char → List Char → Bool
  | [], [] => false
  | [], _ :: _ => true
  | _ :: _, [] => false
  | a :: as, b :: bs =>
    if a.toNat < b.toNat then true
    else if b.toNat < a.toNat then false
    else charListLt as bs

/-- `a ≤ b` in the order `sort.Strings` uses. -/
def goStringLe (a b : String) : Bool := ! charListLt b.data a.data

theorem charListLt_asymm (a b : List Char) (h : charListLt a b = true) :
    charListLt b a = false := by
  induction a generalizing b with
  | nil =>
    cases b with
    | nil => simp [charListLt] at h
    | cons c cs => simp [charListLt]
  | cons x xs ih =>
    cases b with
    | nil => simp [charListLt] at h
    | cons y ys =>
      by_cases hxy : x.toNat < y.toNat
      · have hyx : ¬ y.toNat < x.toNat := Nat.lt_asymm hxy
        simp [charListLt, hxy, hyx]
      · by_cases hyx : y.toNat < x.toNat
        · simp [charListLt, hxy, hyx] at h
        · simp only [charListLt, if_neg hxy, if_neg hyx] at h
          simp [charListLt, hxy, hyx, ih _ h]

theorem charListLt_trans (a b c : List Char) (h₁ : charListLt a b = true)
    (h₂ : charListLt b c = true) : charListLt a c = true := by
  induction a generalizing b c with
  | nil =>
    cases c with
    | nil =>
      cases b with
      | nil => exact h₁
      | cons y ys => simp [charListLt] at h₂
    | cons z zs => simp [charListLt]
  | cons x xs ih =>
    cases b with
    | nil => simp [charListLt] at h₁
    | cons y ys =>
      cases c with
      | nil => simp [charListLt] at h₂
      | cons z zs =>
        by_cases hxy : x.toNat < y.toNat
        · by_cases hyz : y.toNat < z.toNat
          · simp [charListLt, Nat.lt_trans hxy hyz]
          · by_cases hzy : z.toNat < y.toNat
            · simp [charListLt, hyz, hzy] at h₂
            · have hyz' : y.toNat = z.toNat := Nat.le_antisymm
                (Nat.le_of_not_lt hzy) (Nat.le_of_not_lt hyz)
              simp [charListLt, hyz' ▸ hxy]
        · by_cases hyx : y.toNat < x.toNat
          · simp [charListLt, hxy, hyx] at h₁
          · have hxy' : x.toNat = y.toNat := Nat.le_antisymm
              (Nat.le_of_not_lt hyx) (Nat.le_of_not_lt hxy)
            simp only [charListLt, if_neg hxy, if_neg hyx] at h₁
            by_cases hyz : y.toNat < z.toNat
            · simp [charListLt, hxy' ▸ hyz]
            · by_cases hzy : z.toNat < y.toNat
              · simp [charListLt, hyz, hzy] at h₂
              · simp only [charListLt, if_neg hyz, if_neg hzy] at h₂
                have hxz : ¬ x.toNat < z.toNat := by
                  rw [hxy']
                  exact hyz
                have hzx : ¬ z.toNat < x.toNat := by
                  rw [hxy']
                  exact hzy
                simp [charListLt, hxz, hzx, ih _ _ h₁ h₂]

theorem eq_of_not_charListLt (a b : List Char) (h₁ : charListLt a b = false)
    (h₂ : charListLt b a = false) : a = b := by
  induction a generalizing b with
  | nil =>
    cases b with
    | nil => rfl
    | cons y ys => simp [charListLt] at h₁
  | cons x xs ih =>
    cases b with
    | nil => simp [charListLt] at h₂
    | cons y ys =>
      by_cases hxy : x.toNat < y.toNat
      · simp [charListLt, hxy] at h₁
      · by_cases hyx : y.toNat < x.toNat
        · simp [charListLt, hyx, Nat.lt_asymm hyx] at h₂
        · have hxyn : x.toNat = y.toNat :=
            Nat.le_antisymm (Nat.le_of_not_lt hyx) (Nat.le_of_not_lt hxy)
          have hx : x = y := by
            have hval : x.val = y.val := by
              unfold Char.toNat at hxyn
              exact UInt32.toNat.inj hxyn
            exact Char.eq_of_val_eq hval
          simp only [charListLt, if_neg hxy, if_neg hyx] at h₁
          have hyx' : ¬ y.toNat < x.toNat := hyx
          simp only [charListLt, if_neg hyx', if_neg hxy] at h₂
          rw [hx, ih _ h₁ h₂]

/-- The relation strings are sorted by; `Prop`-valued for the sorting lemmas. -/
def goLeP (a b : String) : Prop := goStringLe a b = true

instance : DecidableRel goLeP := fun a b => instDecidableEqBool (goStringLe a b) true

instance : IsTotal String goLeP where
  total a b := by
    unfold goLeP goStringLe
    by_cases h : charListLt b.data a.data = true
    · right
      simp [charListLt_asymm _ _ h]
    · left
      simp only [Bool.not_eq_true] at h
      simp [h]

instance : IsTrans String goLeP where
  trans a b c hab hbc := by
    unfold goLeP goStringLe at hab hbc ⊢
    simp only [Bool.not_eq_true', Bool.not_eq_false] at hab hbc ⊢
    by_cases hca : charListLt c.data a.data = true
    · exfalso
      by_cases hcb : charListLt c.data b.data = true
      · rw [hcb] at hbc
        cases hbc
      · by_cases hbcl : charListLt b.data c.data = true
        · have := charListLt_trans _ _ _ hbcl hca
          rw [this] at hab
          cases hab
        · have heq : b.data = c.data := eq_of_not_charListLt _ _
            (Bool.not_eq_true _ ▸ hbcl) (Bool.not_eq_true _ ▸ hcb)
          rw [← heq] at hca
          rw [hca] at hab
          cases hab
    · exact Bool.not_eq_true _ ▸ hca

instance : IsAntisymm String goLeP where
  antisymm a b hab hba := by
    unfold goLeP goStringLe at hab hba
    simp only [Bool.not_eq_true', Bool.not_eq_false] at hab hba
    exact String.ext (eq_of_not_charListLt _ _ hba hab)

/-- The sorted tag rendering built by `newMP` from the merged tag map: tag keys
sorted ascending, each rendered as `key=value`, joined by a comma and a space. -/
def tagString (m : List (String × String)) : String :=
  let keys := List.insertionSort goLeP (m.map Prod.fst)
  String.intercalate ", " (keys.map (fun k => k ++ "=" ++ (mlook k m).getD ""))

theorem tagString_eq_of_eqv (m₁ m₂ : List (String × String))
    (h₁ : (m₁.map Prod.fst).Nodup) (h₂ : (m₂.map Prod.fst).Nodup)
    (h : ∀ k, mlook k m₁ = mlook k m₂) : tagString m₁ = tagString m₂ := by
  have hmem : ∀ k, k ∈ m₁.map Prod.fst ↔ k ∈ m₂.map Prod.fst := by
    intro k
    rw [mem_keys_iff_isSome_mlook, mem_keys_iff_isSome_mlook, h k]
  have htf : (m₁.map Prod.fst).toFinset = (m₂.map Prod.fst).toFinset := by
    apply Finset.ext
    intro a
    simp only [List.mem_toFinset]
    exact hmem a
  have hperm : List.Perm (m₁.map Prod.fst) (m₂.map Prod.fst) :=
    List.perm_of_nodup_nodup_toFinset_eq h₁ h₂ htf
  have hsortperm :
      List.Perm (List.insertionSort goLeP (m₁.map Prod.fst))
        (List.insertionSort goLeP (m₂.map Prod.fst)) :=
    ((List.perm_insertionSort _ _).trans hperm).trans (List.perm_insertionSort _ _).symm
  have hkeys :
      List.insertionSort goLeP (m₁.map Prod.fst) =
        List.insertionSort goLeP (m₂.map Prod.fst) :=
    List.eq_of_perm_of_sorted hsortperm
      (List.sorted_insertionSort _ _) (List.sorted_insertionSort _ _)
  have hfun : (fun k => k ++ "=" ++ (mlook k m₁).getD "") =
      (fun k => k ++ "=" ++ (mlook k m₂).getD "") := by
    funext k
    rw [h k]
  simp only [tagString, hkeys, hfun]

/-! ## Data model of the point-mapping builder (`plugins/common/opcua/input`) -/

/-- `input.DataChangeFilter`: data-change filter configuration; the deadband
value is a Go `*float64`, modelled as an optional rational. -/
structure DataChangeFilter where
  Trigger : String
  DeadbandType : String
  DeadbandValue : Option ℚ
deriving Repr, DecidableEq

/-- `input.MonitoringParameters`; the sampling interval is a `config.Duration`
(signed 64-bit nanosecond count). -/
structure MonitoringParameters where
  SamplingInterval : Int
  QueueSize : Option Nat
  DiscardOldest : Option Bool
  dataChangeFilter : Option DataChangeFilter
deriving Repr, DecidableEq

/-- `input.NodeSettings`: how to map one OPC UA node to a metric. The two
deprecated-vs-new tag sources (`TagsSlice`, `DefaultTags`) are both kept. -/
structure NodeSettings where
  FieldName : String
  Namespace : String
  IdentifierType : String
  Identifier : String
  TagsSlice : List (List String)
  DefaultTags : List (String × String)
  MonitoringParams : MonitoringParameters
deriving Repr, DecidableEq

/-- `NodeSettings.NodeID`: the OPC UA node id string `ns=<ns>;<type>=<id>`. -/
def NodeSettings.NodeID (tag : NodeSettings) : String :=
  "ns=" ++ tag.Namespace ++ ";" ++ tag.IdentifierType ++ "=" ++ tag.Identifier

/-- `input.NodeGroupSettings`: group defaults applied to contained nodes. -/
structure NodeGroupSettings where
  MetricName : String
  Namespace : String
  IdentifierType : String
  Nodes : List NodeSettings
  TagsSlice : List (List String)
  DefaultTags : List (String × String)
  SamplingInterval : Int
deriving Repr, DecidableEq

/-- The parts of `input.InputClientConfig` (with the embedded
`OpcUAClientConfig` fields `OptionalFields` and the workaround list
`additional_valid_status_codes`) that the subscription client reads. -/
structure InputClientConfig where
  MetricName : String
  Timestamp : String
  TimestampFormat : String
  RootNodes : List NodeSettings
  Groups : List NodeGroupSettings
  OptionalFields : List String
  AdditionalValidStatusCodes : List Nat
  Endpoint : String
deriving Repr, DecidableEq

/-- `input.NodeMetricMapping`: the resolved mapping from one node to a metric. -/
structure NodeMetricMapping where
  Tag : NodeSettings
  idStr : String
  metricName : String
  MetricTags : List (String × String)
deriving Repr, DecidableEq

/-- `input.tagsSliceToMap` (recursion on the remaining pairs, `i` is the number
of pairs already consumed). -/
def tagsSliceToMapAux (m : List (String × String)) (i : Nat) :
    List (List String) → Except String (List (String × String))
  | [] => .ok m
  | tag :: rest =>
    if tag.length ≠ 2 then
      .error ("tag " ++ toString (i + 1) ++ " needs 2 values, has " ++
        toString tag.length ++ ": " ++ toString tag)
    else
      let k := tag.getD 0 ""
      let v := tag.getD 1 ""
      if k = "" then .error ("tag " ++ toString (i + 1) ++ " has empty name")
      else if v = "" then .error ("tag " ++ toString (i + 1) ++ " has empty value")
      else if (mlook k m).isSome then
        .error ("tag " ++ toString (i + 1) ++ " has duplicate key: " ++ k)
      else tagsSliceToMapAux (mapInsert m k v) (i + 1) rest

/-- `input.tagsSliceToMap`: converts the deprecated paired-tag-list form into a
tag map, rejecting malformed pairs and duplicate keys. -/
def tagsSliceToMap (tags : List (List String)) : Except String (List (String × String)) :=
  tagsSliceToMapAux [] 0 tags

/-- The node-tag selection inside `NewNodeMetricMapping`: the `default_tags`
map if non-empty, else the converted deprecated tag slice, else no tags. -/
def nodeTagsOf (node : NodeSettings) : Except String (List (String × String)) :=
  if node.DefaultTags.length > 0 then .ok node.DefaultTags
  else if node.TagsSlice.length > 0 then tagsSliceToMap node.TagsSlice
  else .ok []

/-- `input.NewNodeMetricMapping`: group tags are copied into a fresh map first,
then the node tags are written over them, so a node tag wins on key collision. -/
def NewNodeMetricMapping (metricName : String) (node : NodeSettings)
    (groupTags : List (String × String)) : Except String NodeMetricMapping :=
  match nodeTagsOf node with
  | .error e => .error e
  | .ok nodeTags =>
    .ok { Tag := node, idStr := node.NodeID, metricName := metricName,
          MetricTags := insertAll (insertAll [] groupTags) nodeTags }

/-- `input.metricParts`: the composite duplicate-detection key. -/
structure metricParts where
  metricName : String
  fieldName : String
  tags : String
deriving Repr, DecidableEq

/-- `input.newMP`: the duplicate key of a mapping — metric name, field name and
the sorted `key=value` rendering of the merged tags. -/
def newMP (n : NodeMetricMapping) : metricParts :=
  { metricName := n.metricName, fieldName := n.Tag.FieldName,
    tags := tagString n.MetricTags }

/-- The duplicate-rejection message of `validateNodeToAdd`
(`name %q is duplicated (metric name %q, tags %q)`). -/
def dupMsg (mp : metricParts) : String :=
  "name \"" ++ mp.fieldName ++ "\" is duplicated (metric name \"" ++
    mp.metricName ++ "\", tags \"" ++ mp.tags ++ "\")"

/-- Whether `strconv.Atoi` succeeds on the string: optional sign, at least one
digit, value within the signed 64-bit range. -/
def atoiOK (s : String) : Bool :=
  if s.startsWith "-" then
    match (s.drop 1).toNat? with
    | some n => n ≤ 2 ^ 63
    | none => false
  else
    let t := if s.startsWith "+" then s.drop 1 else s
    match t.toNat? with
    | some n => n ≤ 2 ^ 63 - 1
    | none => false

/-- `input.validateNodeToAdd`: structural emptiness checks, then the duplicate
check against the already-accepted keys, then the identifier-type check; the
set of accepted keys (grown on success) is returned explicitly instead of
being mutated. -/
def validateNodeToAdd (existing : List metricParts) (nmm : NodeMetricMapping) :
    Except String (List metricParts) :=
  if nmm.Tag.FieldName = "" then
    .error ("empty name in \"" ++ nmm.Tag.FieldName ++ "\"")
  else if nmm.Tag.Namespace.length = 0 then
    .error "empty node namespace not allowed"
  else if nmm.Tag.Identifier.length = 0 then
    .error "empty node identifier not allowed"
  else
    let mp := newMP nmm
    if mp ∈ existing then
      .error (dupMsg mp)
    else if nmm.Tag.IdentifierType = "i" then
      if atoiOK nmm.Tag.Identifier then .ok (existing ++ [mp])
      else
        .error ("identifier type \"" ++ nmm.Tag.IdentifierType ++
          "\" does not match the type of identifier \"" ++ nmm.Tag.Identifier ++ "\"")
    else if nmm.Tag.IdentifierType = "s" ∨ nmm.Tag.IdentifierType = "g" ∨
        nmm.Tag.IdentifierType = "b" then
      .ok (existing ++ [mp])
    else
      .error ("invalid identifier type \"" ++ nmm.Tag.IdentifierType ++ "\" in \"" ++
        nmm.Tag.FieldName ++ "\"")

/-- Accumulator of `InitNodeMetricMapping`: accepted duplicate keys and the
mappings built so far. -/
structure BuildState where
  existing : List metricParts
  mappings : List NodeMetricMapping
deriving Repr, DecidableEq

/-- One iteration of the node loops in `InitNodeMetricMapping`: build the
mapping, validate it, append it. -/
def addNode (metricName : String) (groupTags : List (String × String))
    (st : BuildState) (node : NodeSettings) : Except String BuildState :=
  match NewNodeMetricMapping metricName node groupTags with
  | .error e => .error e
  | .ok nmm =>
    match validateNodeToAdd st.existing nmm with
    | .error e => .error e
    | .ok ex => .ok { existing := ex, mappings := st.mappings ++ [nmm] }

/-- The per-node defaulting done at the top of the group loop body: namespace,
identifier type and sampling interval fall back to the group's values. -/
def applyGroupDefaults (group : NodeGroupSettings) (node : NodeSettings) : NodeSettings :=
  { node with
    Namespace := if node.Namespace = "" then group.Namespace else node.Namespace
    IdentifierType :=
      if node.IdentifierType = "" then group.IdentifierType else node.IdentifierType
    MonitoringParams :=
      { node.MonitoringParams with
        SamplingInterval :=
          if node.MonitoringParams.SamplingInterval = 0 then group.SamplingInterval
          else node.MonitoringParams.SamplingInterval } }

/-- The `range` loop over a node list in `InitNodeMetricMapping`, stopping at
the first error. -/
def foldNodes (metricName : String) (groupTags : List (String × String))
    (st : BuildState) : List NodeSettings → Except String BuildState
  | [] => .ok st
  | node :: rest =>
    match addNode metricName groupTags st node with
    | .error e => .error e
    | .ok st' => foldNodes metricName groupTags st' rest

/-- The group tags selection in the group loop of `InitNodeMetricMapping`:
`default_tags` wins over the deprecated tag slice. -/
def groupTagsOf (group : NodeGroupSettings) : Except String (List (String × String)) :=
  if group.DefaultTags.length > 0 then .ok group.DefaultTags
  else if group.TagsSlice.length > 0 then tagsSliceToMap group.TagsSlice
  else .ok []

/-- The group loop body of `InitNodeMetricMapping`: group metric name defaults
to the plugin metric name, and every node is defaulted, built and validated. -/
def addGroup (cfgMetricName : String) (st : BuildState) (group : NodeGroupSettings) :
    Except String BuildState :=
  let metricName := if group.MetricName = "" then cfgMetricName else group.MetricName
  match groupTagsOf group with
  | .error e => .error e
  | .ok groupTags =>
    foldNodes metricName groupTags st (group.Nodes.map (applyGroupDefaults group))

/-- The `range` loop over the groups in `InitNodeMetricMapping`, stopping at
the first error. -/
def foldGroups (cfgMetricName : String) (st : BuildState) :
    List NodeGroupSettings → Except String BuildState
  | [] => .ok st
  | group :: rest =>
    match addGroup cfgMetricName st group with
    | .error e => .error e
    | .ok st' => foldGroups cfgMetricName st' rest

/-- `OpcUAInputClient.InitNodeMetricMapping`: root nodes first (plugin metric
name, no group tags), then the groups in order; the first validation error
aborts the whole build. -/
def InitNodeMetricMapping (cfg : InputClientConfig) : Except String (List NodeMetricMapping) :=
  match foldNodes cfg.MetricName [] ⟨[], []⟩ cfg.RootNodes with
  | .error e => .error e
  | .ok st =>
    match foldGroups cfg.MetricName st cfg.Groups with
    | .error e => .error e
    | .ok st' => .ok st'.mappings

/-! ## Lemmas about the point-mapping builder -/

theorem string_length_eq_zero_iff (s : String) : s.length = 0 ↔ s = "" := by
  constructor
  · intro h
    exact String.ext (List.length_eq_zero.mp h)
  · intro h
    subst h
    rfl

theorem mlook_eq_some_iff_mem (m : List (κ × α)) (k : κ) (v : α)
    (h : (m.map Prod.fst).Nodup) : mlook k m = some v ↔ (k, v) ∈ m := by
  induction m with
  | nil => simp [mlook]
  | cons p rest ih =>
    simp only [List.map_cons, List.nodup_cons] at h
    by_cases hk : p.1 = k
    · subst hk
      simp only [mlook, if_pos rfl, List.mem_cons]
      constructor
      · intro hv
        left
        injection hv with hv
        rw [← hv]
      · rintro (he | hmem)
        · have hv : v = p.2 := by
            have := congrArg Prod.snd he
            simpa using this
          rw [hv]
          simp
        · exact absurd (List.mem_map_of_mem Prod.fst hmem) h.1
    · simp only [mlook, if_neg hk, List.mem_cons]
      rw [ih h.2]
      constructor
      · intro hm
        exact Or.inr hm
      · rintro (he | hm)
        · exact absurd (congrArg Prod.fst he).symm hk
        · exact hm

theorem mlook_eq_of_perm (m₁ m₂ : List (κ × α))
    (hp : List.Perm m₁ m₂) (h₁ : (m₁.map Prod.fst).Nodup) (k : κ) :
    mlook k m₁ = mlook k m₂ := by
  have h₂ : (m₂.map Prod.fst).Nodup := (hp.map Prod.fst).nodup_iff.mp h₁
  cases hv : mlook k m₁ with
  | some v =>
    have hmem : (k, v) ∈ m₁ := (mlook_eq_some_iff_mem _ _ _ h₁).mp hv
    exact ((mlook_eq_some_iff_mem _ _ _ h₂).mpr (hp.mem_iff.mp hmem)).symm
  | none =>
    have hk : k ∉ m₁.map Prod.fst := by
      rw [mem_keys_iff_isSome_mlook, hv]
      simp
    have hk₂ : k ∉ m₂.map Prod.fst := fun hm => hk ((hp.map Prod.fst).mem_iff.mpr hm)
    rw [mlook_eq_none_of_not_mem _ _ hk₂]

theorem newMP_eq_of_eqv (m₁ m₂ : NodeMetricMapping)
    (hmn : m₁.metricName = m₂.metricName) (hfn : m₁.Tag.FieldName = m₂.Tag.FieldName)
    (h₁ : (m₁.MetricTags.map Prod.fst).Nodup) (h₂ : (m₂.MetricTags.map Prod.fst).Nodup)
    (h : ∀ k, mlook k m₁.MetricTags = mlook k m₂.MetricTags) :
    newMP m₁ = newMP m₂ := by
  unfold newMP
  rw [hmn, hfn, tagString_eq_of_eqv _ _ h₁ h₂ h]

theorem nodeTagsOf_eq_defaultTags (node : NodeSettings) (h : node.TagsSlice = []) :
    nodeTagsOf node = .ok node.DefaultTags := by
  unfold nodeTagsOf
  by_cases hd : node.DefaultTags.length > 0
  · simp [hd]
  · have hnil : node.DefaultTags = [] :=
      List.length_eq_zero.mp (Nat.eq_zero_of_not_pos hd)
    simp [hd, h, hnil]

theorem newNMM_ok (metricName : String) (node : NodeSettings)
    (groupTags : List (String × String)) (m : NodeMetricMapping)
    (h : NewNodeMetricMapping metricName node groupTags = .ok m) :
    m.Tag = node ∧ m.metricName = metricName ∧ m.idStr = node.NodeID ∧
      (m.MetricTags.map Prod.fst).Nodup ∧
      ∃ nodeTags, nodeTagsOf node = .ok nodeTags ∧
        m.MetricTags = insertAll (insertAll [] groupTags) nodeTags := by
  unfold NewNodeMetricMapping at h
  cases he : nodeTagsOf node with
  | error e =>
    rw [he] at h
    cases h
  | ok nodeTags =>
    rw [he] at h
    injection h with h
    subst h
    refine ⟨rfl, rfl, rfl, ?_, nodeTags, rfl, rfl⟩
    exact nodup_keys_insertAll _ _ (nodup_keys_insertAll _ _ (by simp))

/-- The identifier-type membership check of `validateNodeToAdd` as a predicate. -/
def identifierTypeOK (nmm : NodeMetricMapping) : Prop :=
  (nmm.Tag.IdentifierType = "i" ∧ atoiOK nmm.Tag.Identifier = true) ∨
    nmm.Tag.IdentifierType = "s" ∨ nmm.Tag.IdentifierType = "g" ∨
    nmm.Tag.IdentifierType = "b"

theorem validateNodeToAdd_dup (existing : List metricParts) (nmm : NodeMetricMapping)
    (hf : nmm.Tag.FieldName ≠ "") (hns : nmm.Tag.Namespace ≠ "")
    (hid : nmm.Tag.Identifier ≠ "") (hmem : newMP nmm ∈ existing) :
    validateNodeToAdd existing nmm = .error (dupMsg (newMP nmm)) := by
  have hns' : ¬ nmm.Tag.Namespace.length = 0 :=
    fun h => hns ((string_length_eq_zero_iff _).mp h)
  have hid' : ¬ nmm.Tag.Identifier.length = 0 :=
    fun h => hid ((string_length_eq_zero_iff _).mp h)
  simp [validateNodeToAdd, hf, hns', hid', hmem]

theorem validateNodeToAdd_ok (existing : List metricParts) (nmm : NodeMetricMapping)
    (hf : nmm.Tag.FieldName ≠ "") (hns : nmm.Tag.Namespace ≠ "")
    (hid : nmm.Tag.Identifier ≠ "") (hmem : newMP nmm ∉ existing)
    (htype : identifierTypeOK nmm) :
    validateNodeToAdd existing nmm = .ok (existing ++ [newMP nmm]) := by
  have hns' : ¬ nmm.Tag.Namespace.length = 0 :=
    fun h => hns ((string_length_eq_zero_iff _).mp h)
  have hid' : ¬ nmm.Tag.Identifier.length = 0 :=
    fun h => hid ((string_length_eq_zero_iff _).mp h)
  rcases htype with ⟨h, ha⟩ | h | h | h
  · simp [validateNodeToAdd, hf, hns', hid', hmem, h, ha]
  · simp [validateNodeToAdd, hf, hns', hid', hmem, h]
  · simp [validateNodeToAdd, hf, hns', hid', hmem, h]
  · simp [validateNodeToAdd, hf, hns', hid', hmem, h]

theorem validateNodeToAdd_ok_inv (existing : List metricParts) (nmm : NodeMetricMapping)
    (ex : List metricParts) (h : validateNodeToAdd existing nmm = .ok ex) :
    ex = existing ++ [newMP nmm] ∧ nmm.Tag.FieldName ≠ "" ∧
      nmm.Tag.Namespace ≠ "" ∧ nmm.Tag.Identifier ≠ "" ∧
      newMP nmm ∉ existing ∧ identifierTypeOK nmm := by
  unfold validateNodeToAdd at h
  by_cases hf : nmm.Tag.FieldName = ""
  · simp [hf] at h
  by_cases hns : nmm.Tag.Namespace.length = 0
  · simp [hf, hns] at h
  by_cases hid : nmm.Tag.Identifier.length = 0
  · simp [hf, hns, hid] at h
  by_cases hmem : newMP nmm ∈ existing
  · simp [hf, hns, hid, hmem] at h
  by_cases hty : nmm.Tag.IdentifierType = "i"
  · by_cases ha : atoiOK nmm.Tag.Identifier
    · simp only [hf, hns, hid, hmem, hty, ha, if_neg, if_pos, if_false, if_true,
        ite_true, ite_false] at h
      simp [hf, hns, hid, hmem, hty, ha] at h
      exact ⟨h.symm, hf, fun he => hns (by rw [he]; rfl),
        fun he => hid (by rw [he]; rfl), hmem, Or.inl ⟨hty, ha⟩⟩
    · simp [hf, hns, hid, hmem, hty, ha] at h
  · by_cases hsgb : nmm.Tag.IdentifierType = "s" ∨ nmm.Tag.IdentifierType = "g" ∨
        nmm.Tag.IdentifierType = "b"
    · simp [hf, hns, hid, hmem, hty, hsgb] at h
      refine ⟨h.symm, hf, fun he => hns (by rw [he]; rfl),
        fun he => hid (by rw [he]; rfl), hmem, ?_⟩
      rcases hsgb with h1 | h1 | h1
      · exact Or.inr (Or.inl h1)
      · exact Or.inr (Or.inr (Or.inl h1))
      · exact Or.inr (Or.inr (Or.inr h1))
    · simp [hf, hns, hid, hmem, hty, hsgb] at h

/-! ## Shared concrete inputs -/

/-- Monitoring parameters with every option unset. -/
def defaultMonParams : MonitoringParameters :=
  { SamplingInterval := 0, QueueSize := none, DiscardOldest := none,
    dataChangeFilter := none }

/-- A node definition using the `default_tags` map as its only tag source. -/
def plainNode (fieldName ns idType ident : String) (tags : List (String × String)) :
    NodeSettings :=
  { FieldName := fieldName, Namespace := ns, IdentifierType := idType,
    Identifier := ident, TagsSlice := [], DefaultTags := tags,
    MonitoringParams := defaultMonParams }

/-- A configuration with no groups, no optional features and the given metric
name and root nodes. -/
def rootOnlyConfig (metricName : String) (nodes : List NodeSettings) : InputClientConfig :=
  { MetricName := metricName, Timestamp := "", TimestampFormat := "",
    RootNodes := nodes, Groups := [], OptionalFields := [],
    AdditionalValidStatusCodes := [], Endpoint := "" }

/-! ## C1: duplicate detection by the composite key -/

/-- **C1, counterexample.** Two structurally valid points that differ in their
tag values — first point tags `a ↦ "1, b=2", b ↦ "3"`, second point tags
`a ↦ "1", b ↦ "2, b=3"` — are NOT both accepted: their distinct tag sets render
to the same sorted tag string `a=1, b=2, b=3`, so the build rejects the second
point as a duplicate, contradicting the claim that two points differing in any
tag value are both accepted. -/
theorem c1_counterexample :
    mlook "a" [("a", "1, b=2"), ("b", "3")] ≠ mlook "a" [("a", "1"), ("b", "2, b=3")] ∧
    mlook "b" [("a", "1, b=2"), ("b", "3")] ≠ mlook "b" [("a", "1"), ("b", "2, b=3")] ∧
    InitNodeMetricMapping (rootOnlyConfig "m"
        [plainNode "f" "3" "s" "x" [("a", "1, b=2"), ("b", "3")],
         plainNode "f" "3" "s" "y" [("a", "1"), ("b", "2, b=3")]]) =
      .error "name \"f\" is duplicated (metric name \"m\", tags \"a=1, b=2, b=3\")" := by
  exact ⟨by decide, by decide, by rfl⟩

/-- **C1 (amended).** For every pair of point definitions whose resolved
measurement name, field name and merged tag set are equal (tag sets compared
as sets, regardless of insertion order), the mapping build rejects the
configuration with an error naming the duplicated field name, measurement name
and tag string. Two points that differ in a tag value are both accepted
provided their sorted `key=value` tag renderings differ (tag values containing
the separators can make distinct tag sets render identically, and such pairs
are rejected as duplicates). The composite key is computed from the merged
tags sorted by tag name, hence is invariant under reordering of the tag set. -/
theorem c1_amended :
    (∀ (cfg : InputClientConfig) (nodeA nodeB : NodeSettings)
       (mA mB : NodeMetricMapping) (exA : List metricParts),
       cfg.RootNodes = [nodeA, nodeB] → cfg.Groups = [] →
       NewNodeMetricMapping cfg.MetricName nodeA [] = .ok mA →
       NewNodeMetricMapping cfg.MetricName nodeB [] = .ok mB →
       validateNodeToAdd [] mA = .ok exA →
       nodeB.FieldName ≠ "" → nodeB.Namespace ≠ "" → nodeB.Identifier ≠ "" →
       nodeA.FieldName = nodeB.FieldName →
       (∀ k, mlook k mA.MetricTags = mlook k mB.MetricTags) →
       InitNodeMetricMapping cfg =
         .error ("name \"" ++ nodeB.FieldName ++ "\" is duplicated (metric name \"" ++
           cfg.MetricName ++ "\", tags \"" ++ tagString mB.MetricTags ++ "\")")) ∧
    (∀ (cfg : InputClientConfig) (nodeA nodeB : NodeSettings)
       (mA mB : NodeMetricMapping) (exA exB : List metricParts),
       cfg.RootNodes = [nodeA, nodeB] → cfg.Groups = [] →
       NewNodeMetricMapping cfg.MetricName nodeA [] = .ok mA →
       NewNodeMetricMapping cfg.MetricName nodeB [] = .ok mB →
       validateNodeToAdd [] mA = .ok exA →
       validateNodeToAdd [] mB = .ok exB →
       tagString mA.MetricTags ≠ tagString mB.MetricTags →
       InitNodeMetricMapping cfg = .ok [mA, mB]) ∧
    (∀ m₁ m₂ : NodeMetricMapping, m₁.metricName = m₂.metricName →
       m₁.Tag.FieldName = m₂.Tag.FieldName →
       (m₁.MetricTags.map Prod.fst).Nodup →
       List.Perm m₁.MetricTags m₂.MetricTags →
       newMP m₁ = newMP m₂) := by
  refine ⟨?_, ?_, ?_⟩
  · intro cfg nodeA nodeB mA mB exA hroot hgroups hA hB hvalA hf hns hid hfield heqv
    obtain ⟨hATag, hAmn, _, hAnodup, _⟩ := newNMM_ok _ _ _ _ hA
    obtain ⟨hBTag, hBmn, _, hBnodup, _⟩ := newNMM_ok _ _ _ _ hB
    obtain ⟨hexA, _⟩ := validateNodeToAdd_ok_inv _ _ _ hvalA
    have hkey : newMP mA = newMP mB :=
      newMP_eq_of_eqv mA mB (by rw [hAmn, hBmn]) (by rw [hATag, hBTag, hfield])
        hAnodup hBnodup heqv
    have hmem : newMP mB ∈ exA := by
      rw [hexA, ← hkey]
      simp
    have hdup : validateNodeToAdd exA mB = .error (dupMsg (newMP mB)) :=
      validateNodeToAdd_dup _ _ (by rw [hBTag]; exact hf) (by rw [hBTag]; exact hns)
        (by rw [hBTag]; exact hid) hmem
    have hmsg : dupMsg (newMP mB) =
        "name \"" ++ nodeB.FieldName ++ "\" is duplicated (metric name \"" ++
          cfg.MetricName ++ "\", tags \"" ++ tagString mB.MetricTags ++ "\")" := by
      unfold dupMsg newMP
      rw [hBTag, hBmn]
    unfold InitNodeMetricMapping
    rw [hroot, hgroups]
    simp only [foldNodes, addNode, hA, hB, hvalA, hdup, hmsg]
  · intro cfg nodeA nodeB mA mB exA exB hroot hgroups hA hB hvalA hvalB hneq
    obtain ⟨hexA, _⟩ := validateNodeToAdd_ok_inv _ _ _ hvalA
    obtain ⟨_, hBf, hBns, hBid, _, hBty⟩ := validateNodeToAdd_ok_inv _ _ _ hvalB
    have hne : newMP mB ∉ exA := by
      rw [hexA]
      simp only [List.nil_append, List.mem_singleton]
      intro he
      exact hneq (congrArg metricParts.tags he).symm
    have hvalB2 : validateNodeToAdd exA mB = .ok (exA ++ [newMP mB]) :=
      validateNodeToAdd_ok _ _ hBf hBns hBid hne hBty
    unfold InitNodeMetricMapping
    rw [hroot, hgroups]
    simp only [foldNodes, addNode, hA, hB, hvalA, hvalB2]
    simp [foldGroups]
  · intro m₁ m₂ hmn hfn h₁ hp
    exact newMP_eq_of_eqv m₁ m₂ hmn hfn h₁ ((hp.map Prod.fst).nodup_iff.mp h₁)
      (mlook_eq_of_perm _ _ hp h₁)

/-- **C1, witness.** The rejection branch at two points whose equal tag sets
are listed in different orders, the acceptance branch at two points differing
only in the value of tag `t`, and the key-invariance at a reordered tag list. -/
theorem c1_witness :
    InitNodeMetricMapping (rootOnlyConfig "m"
        [plainNode "f" "3" "s" "x" [("a", "1"), ("b", "2")],
         plainNode "f" "3" "s" "y" [("b", "2"), ("a", "1")]]) =
      .error "name \"f\" is duplicated (metric name \"m\", tags \"a=1, b=2\")" ∧
    InitNodeMetricMapping (rootOnlyConfig "m"
        [plainNode "f" "3" "s" "x" [("t", "1")],
         plainNode "f" "3" "s" "y" [("t", "2")]]) =
      .ok [{ Tag := plainNode "f" "3" "s" "x" [("t", "1")], idStr := "ns=3;s=x",
             metricName := "m", MetricTags := [("t", "1")] },
           { Tag := plainNode "f" "3" "s" "y" [("t", "2")], idStr := "ns=3;s=y",
             metricName := "m", MetricTags := [("t", "2")] }] ∧
    newMP { Tag := plainNode "f" "3" "s" "x" [], idStr := "ns=3;s=x",
            metricName := "m", MetricTags := [("a", "1"), ("b", "2")] } =
      newMP { Tag := plainNode "f" "3" "s" "x" [], idStr := "ns=3;s=x",
              metricName := "m", MetricTags := [("b", "2"), ("a", "1")] } := by
  refine ⟨?_, ?_, ?_⟩
  · have h := c1_amended.1 (rootOnlyConfig "m"
        [plainNode "f" "3" "s" "x" [("a", "1"), ("b", "2")],
         plainNode "f" "3" "s" "y" [("b", "2"), ("a", "1")]])
      (plainNode "f" "3" "s" "x" [("a", "1"), ("b", "2")])
      (plainNode "f" "3" "s" "y" [("b", "2"), ("a", "1")])
      { Tag := plainNode "f" "3" "s" "x" [("a", "1"), ("b", "2")], idStr := "ns=3;s=x",
        metricName := "m", MetricTags := [("a", "1"), ("b", "2")] }
      { Tag := plainNode "f" "3" "s" "y" [("b", "2"), ("a", "1")], idStr := "ns=3;s=y",
        metricName := "m", MetricTags := [("b", "2"), ("a", "1")] }
      [{ metricName := "m", fieldName := "f", tags := "a=1, b=2" }]
      rfl rfl rfl rfl rfl (by decide) (by decide) (by decide) rfl ?_
    · exact h.trans rfl
    · intro k
      by_cases h1 : k = "a"
      · subst h1
        decide
      · by_cases h2 : k = "b"
        · subst h2
          decide
        · have h1' : ¬ ("a" = k) := fun he => h1 he.symm
          have h2' : ¬ ("b" = k) := fun he => h2 he.symm
          simp [mlook, h1', h2']
  · exact c1_amended.2.1 (rootOnlyConfig "m"
        [plainNode "f" "3" "s" "x" [("t", "1")],
         plainNode "f" "3" "s" "y" [("t", "2")]])
      (plainNode "f" "3" "s" "x" [("t", "1")])
      (plainNode "f" "3" "s" "y" [("t", "2")])
      { Tag := plainNode "f" "3" "s" "x" [("t", "1")], idStr := "ns=3;s=x",
        metricName := "m", MetricTags := [("t", "1")] }
      { Tag := plainNode "f" "3" "s" "y" [("t", "2")], idStr := "ns=3;s=y",
        metricName := "m", MetricTags := [("t", "2")] }
      [{ metricName := "m", fieldName := "f", tags := "t=1" }]
      [{ metricName := "m", fieldName := "f", tags := "t=2" }]
      rfl rfl rfl rfl rfl rfl (by decide)
  · exact c1_amended.2.2
      { Tag := plainNode "f" "3" "s" "x" [], idStr := "ns=3;s=x",
        metricName := "m", MetricTags := [("a", "1"), ("b", "2")] }
      { Tag := plainNode "f" "3" "s" "x" [], idStr := "ns=3;s=x",
        metricName := "m", MetricTags := [("b", "2"), ("a", "1")] }
      rfl rfl (by decide) (by decide)

/-! ## C2: validation order inside the build -/

theorem foldNodes_append (metricName : String) (groupTags : List (String × String))
    (st : BuildState) (l₁ l₂ : List NodeSettings) :
    foldNodes metricName groupTags st (l₁ ++ l₂) =
      match foldNodes metricName groupTags st l₁ with
      | .error e => .error e
      | .ok st' => foldNodes metricName groupTags st' l₂ := by
  induction l₁ generalizing st with
  | nil => simp [foldNodes]
  | cons node rest ih =>
    simp only [List.cons_append, foldNodes]
    cases addNode metricName groupTags st node with
    | error e => rfl
    | ok st' => exact ih st'

/-- **C2, counterexample.** A second root point that both collides on the
composite duplicate key (same metric name `m`, field name `f`, empty tag set)
and carries the invalid identifier-type `"z"` is reported with the duplicate
error, not with the structural identifier-type error: the duplicate check runs
before the identifier-type check, contradicting the claimed order. -/
theorem c2_counterexample :
    InitNodeMetricMapping (rootOnlyConfig "m"
        [plainNode "f" "3" "s" "x" [], plainNode "f" "3" "z" "bar" []]) =
      .error "name \"f\" is duplicated (metric name \"m\", tags \"\")" ∧
    "name \"f\" is duplicated (metric name \"m\", tags \"\")" ≠
      "invalid identifier type \"z\" in \"f\"" := by
  exact ⟨by rfl, by decide⟩

/-- **C2 (amended).** The empty-field-name, empty-namespace and
empty-identifier checks run before the duplicate-key check, but the
identifier-type membership check (including the integer parse for `"i"`) runs
after it: a point that both has an invalid identifier-type and collides on the
composite key is reported with the duplicate error, not the structural one.
The first error encountered aborts the entire build, returning that error with
no mappings usable. -/
theorem c2_amended :
    (∀ (existing : List metricParts) (nmm : NodeMetricMapping),
       nmm.Tag.Identifier = "" → nmm.Tag.FieldName ≠ "" → nmm.Tag.Namespace ≠ "" →
       validateNodeToAdd existing nmm = .error "empty node identifier not allowed") ∧
    (∀ (existing : List metricParts) (nmm : NodeMetricMapping),
       nmm.Tag.FieldName ≠ "" → nmm.Tag.Namespace ≠ "" → nmm.Tag.Identifier ≠ "" →
       newMP nmm ∈ existing →
       validateNodeToAdd existing nmm = .error (dupMsg (newMP nmm))) ∧
    (∀ (cfg : InputClientConfig) (l₁ : List NodeSettings) (node : NodeSettings)
       (l₂ : List NodeSettings) (st : BuildState) (e : String),
       cfg.Groups = [] → cfg.RootNodes = l₁ ++ node :: l₂ →
       foldNodes cfg.MetricName [] ⟨[], []⟩ l₁ = .ok st →
       addNode cfg.MetricName [] st node = .error e →
       InitNodeMetricMapping cfg = .error e) := by
  refine ⟨?_, ?_, ?_⟩
  · intro existing nmm hid hf hns
    have hns' : ¬ nmm.Tag.Namespace.length = 0 :=
      fun h => hns ((string_length_eq_zero_iff _).mp h)
    have hid' : nmm.Tag.Identifier.length = 0 := by
      rw [hid]
      rfl
    simp [validateNodeToAdd, hf, hns', hid']
  · intro existing nmm hf hns hid hmem
    exact validateNodeToAdd_dup existing nmm hf hns hid hmem
  · intro cfg l₁ node l₂ st e hgroups hroot hfold hadd
    unfold InitNodeMetricMapping
    rw [hroot, hgroups, foldNodes_append]
    simp only [hfold, foldNodes, hadd]

/-- **C2, witness.** The identifier-emptiness check at a point with identifier
`""`, the duplicate-beats-type-check order at a point with invalid type `"z"`
colliding with an accepted key, and the abort of a three-point build whose
second point fails validation. -/
theorem c2_witness :
    validateNodeToAdd []
        { Tag := plainNode "g" "3" "z" "" [], idStr := "ns=3;z=",
          metricName := "m", MetricTags := [] } =
      .error "empty node identifier not allowed" ∧
    validateNodeToAdd [{ metricName := "m", fieldName := "f", tags := "" }]
      { Tag := plainNode "f" "3" "z" "bar" [], idStr := "ns=3;z=bar",
        metricName := "m", MetricTags := [] } =
      .error "name \"f\" is duplicated (metric name \"m\", tags \"\")" ∧
    InitNodeMetricMapping (rootOnlyConfig "m"
        [plainNode "f" "3" "s" "x" [], plainNode "h" "" "s" "y" [],
         plainNode "k" "3" "s" "z" []]) =
      .error "empty node namespace not allowed" := by
  refine ⟨?_, ?_, ?_⟩
  · exact c2_amended.1 [] _ rfl (by decide) (by decide)
  · have h := c2_amended.2.1 [{ metricName := "m", fieldName := "f", tags := "" }]
      { Tag := plainNode "f" "3" "z" "bar" [], idStr := "ns=3;z=bar",
        metricName := "m", MetricTags := [] }
      (by decide) (by decide) (by decide) (by decide)
    exact h.trans rfl
  · exact c2_amended.2.2 (rootOnlyConfig "m"
        [plainNode "f" "3" "s" "x" [], plainNode "h" "" "s" "y" [],
         plainNode "k" "3" "s" "z" []])
      [plainNode "f" "3" "s" "x" []] (plainNode "h" "" "s" "y" [])
      [plainNode "k" "3" "s" "z" []]
      { existing := [{ metricName := "m", fieldName := "f", tags := "" }],
        mappings := [{ Tag := plainNode "f" "3" "s" "x" [], idStr := "ns=3;s=x",
                       metricName := "m", MetricTags := [] }] }
      "empty node namespace not allowed" rfl rfl rfl rfl

/-! ## C3: tag merge precedence -/

/-- **C3.** The merged tag set of a mapping is the group tag map overridden by
the node tag map: every key of the node map takes the node value, every key of
the group map not in the node map keeps the group value, and no other key
appears. Concretely, group tags `a=1` with node tags `a=2, b=3` merge to
exactly `a=2, b=3`. -/
theorem c3_tag_merge :
    (∀ (metricName : String) (node : NodeSettings) (groupTags : List (String × String))
       (m : NodeMetricMapping),
       node.TagsSlice = [] →
       (groupTags.map Prod.fst).Nodup → (node.DefaultTags.map Prod.fst).Nodup →
       NewNodeMetricMapping metricName node groupTags = .ok m →
       ∀ k, mlook k m.MetricTags =
         match mlook k node.DefaultTags with
         | some v => some v
         | none => mlook k groupTags) ∧
    (∀ (metricName : String) (node : NodeSettings) (m : NodeMetricMapping),
       node.TagsSlice = [] → node.DefaultTags = [("a", "2"), ("b", "3")] →
       NewNodeMetricMapping metricName node [("a", "1")] = .ok m →
       mlook "a" m.MetricTags = some "2" ∧ mlook "b" m.MetricTags = some "3" ∧
       ∀ k, k ≠ "a" → k ≠ "b" → mlook k m.MetricTags = none) := by
  have part1 : ∀ (metricName : String) (node : NodeSettings)
      (groupTags : List (String × String)) (m : NodeMetricMapping),
      node.TagsSlice = [] →
      (groupTags.map Prod.fst).Nodup → (node.DefaultTags.map Prod.fst).Nodup →
      NewNodeMetricMapping metricName node groupTags = .ok m →
      ∀ k, mlook k m.MetricTags =
        match mlook k node.DefaultTags with
        | some v => some v
        | none => mlook k groupTags := by
    intro metricName node groupTags m hslice hg hn hok k
    have hnt := nodeTagsOf_eq_defaultTags node hslice
    unfold NewNodeMetricMapping at hok
    rw [hnt] at hok
    injection hok with hok
    subst hok
    show mlook k (insertAll (insertAll [] groupTags) node.DefaultTags) = _
    rw [mlook_insertAll _ _ _ hn]
    cases hd : mlook k node.DefaultTags with
    | some v => rfl
    | none =>
      show mlook k (insertAll [] groupTags) = _
      rw [mlook_insertAll _ _ _ hg]
      cases hg2 : mlook k groupTags with
      | some v => rfl
      | none => rfl
  refine ⟨part1, ?_⟩
  intro metricName node m hslice hdef hok
  have h := part1 metricName node [("a", "1")] m hslice (by decide)
    (by rw [hdef]; decide) hok
  refine ⟨?_, ?_, ?_⟩
  · have h1 := h "a"
    rw [hdef] at h1
    exact h1.trans rfl
  · have h1 := h "b"
    rw [hdef] at h1
    exact h1.trans rfl
  · intro k hka hkb
    have h1 := h k
    rw [hdef] at h1
    have hka' : ¬ ("a" = k) := fun he => hka he.symm
    have hkb' : ¬ ("b" = k) := fun he => hkb he.symm
    rw [h1]
    simp [mlook, hka', hkb']

/-- **C3, witness.** The merge at group tags `a=1` and node tags `a=2, b=3`:
the merged map holds `a=2`, `b=3` and nothing else (sampled at key `c`). -/
theorem c3_witness :
    mlook "a" (insertAll (insertAll [] [("a", "1")]) [("a", "2"), ("b", "3")]) = some "2" ∧
    mlook "b" (insertAll (insertAll [] [("a", "1")]) [("a", "2"), ("b", "3")]) = some "3" ∧
    mlook "c" (insertAll (insertAll [] [("a", "1")]) [("a", "2"), ("b", "3")]) = none := by
  have h := c3_tag_merge.2 "m" (plainNode "f" "3" "s" "x" [("a", "2"), ("b", "3")])
    { Tag := plainNode "f" "3" "s" "x" [("a", "2"), ("b", "3")], idStr := "ns=3;s=x",
      metricName := "m",
      MetricTags := insertAll (insertAll [] [("a", "1")]) [("a", "2"), ("b", "3")] }
    rfl rfl rfl
  exact ⟨h.1, h.2.1, h.2.2 "c" (by decide) (by decide)⟩

/-! ## C4: change-filter validation in the request translator
(`subscribe_client.go`) -/

/-- `ua.DataChangeTrigger` (protocol enum); `DataChangeTriggerFromString` maps
the three known names and sends everything else to the zero value `Status`. -/
inductive UADataChangeTrigger
  | status
  | statusValue
  | statusValueTimestamp
deriving Repr, DecidableEq

/-- `ua.DataChangeTriggerFromString` of the protocol library. -/
def DataChangeTriggerFromString (s : String) : UADataChangeTrigger :=
  if s = "StatusValue" then .statusValue
  else if s = "StatusValueTimestamp" then .statusValueTimestamp
  else .status

/-- `ua.DeadbandTypeFromString` of the protocol library: the numeric deadband
kind (`None = 0`, `Absolute = 1`, `Percent = 2`), unknown names map to 0. -/
def DeadbandTypeFromString (s : String) : Nat :=
  if s = "Absolute" then 1 else if s = "Percent" then 2 else 0

/-- The typed `ua.DataChangeFilter` payload attached to a monitoring request. -/
structure UADataChangeFilter where
  Trigger : UADataChangeTrigger
  DeadbandType : Nat
  DeadbandValue : ℚ
deriving Repr, DecidableEq

/-- The `RequestedParameters` of a `ua.MonitoredItemCreateRequest`, restricted
to the fields the translator touches; the sampling interval is the float
millisecond count (integer division of the nanosecond duration). -/
structure RequestedParameters where
  SamplingInterval : ℚ
  QueueSize : Nat
  DiscardOldest : Bool
  Filter : Option UADataChangeFilter
deriving Repr, DecidableEq

/-- `ua.MonitoredItemCreateRequest`, with the monitored node id kept as its
string rendering. -/
structure MonitoredItemCreateRequest where
  NodeID : String
  ClientHandle : Nat
  RequestedParameters : RequestedParameters
deriving Repr, DecidableEq

/-- `checkDataChangeFilterParameters`: the switch cases in source order —
unknown trigger, unknown deadband type, missing deadband value, negative
deadband value; `none` means the filter is valid. -/
def checkDataChangeFilterParameters (params : DataChangeFilter) : Option String :=
  if params.Trigger ≠ "Status" ∧ params.Trigger ≠ "StatusValue" ∧
      params.Trigger ≠ "StatusValueTimestamp" then
    some ("trigger '" ++ params.Trigger ++ "' not supported")
  else if params.DeadbandType ≠ "Absolute" ∧ params.DeadbandType ≠ "Percent" then
    some ("deadband_type '" ++ params.DeadbandType ++ "' not supported")
  else
    match params.DeadbandValue with
    | none => some "deadband_value was not set"
    | some v => if v < 0 then some "negative deadband_value not supported" else none

/-- The requested-parameters assembly in `assignConfigValuesToRequest`:
sampling interval always copied (in milliseconds, by integer division of the
nanosecond duration), queue size and discard-oldest only when explicitly set. -/
def baseParams (req : MonitoredItemCreateRequest) (monParams : MonitoringParameters) :
    RequestedParameters :=
  let p₀ := { req.RequestedParameters with
    SamplingInterval := ((monParams.SamplingInterval / 1000000 : Int) : ℚ) }
  let p₁ := match monParams.QueueSize with
    | some qs => { p₀ with QueueSize := qs }
    | none => p₀
  match monParams.DiscardOldest with
  | some d => { p₁ with DiscardOldest := d }
  | none => p₁

/-- The filter branch of `assignConfigValuesToRequest`: a present change
filter is validated (an invalid one fails with the check message suffixed by
the node id) and attached as the typed payload whose deadband value
dereferences the checked pointer. -/
def applyFilter (req : MonitoredItemCreateRequest) (p : RequestedParameters)
    (dcf : Option DataChangeFilter) : Except String MonitoredItemCreateRequest :=
  match dcf with
  | none => .ok { req with RequestedParameters := p }
  | some f =>
    match checkDataChangeFilterParameters f with
    | some errMsg => .error (errMsg ++ ", node '" ++ req.NodeID ++ "'")
    | none =>
      .ok { req with RequestedParameters :=
        { p with Filter := some ⟨DataChangeTriggerFromString f.Trigger,
            DeadbandTypeFromString f.DeadbandType, f.DeadbandValue.getD 0⟩ } }

/-- `assignConfigValuesToRequest`: parameter assembly then filter handling. -/
def assignConfigValuesToRequest (req : MonitoredItemCreateRequest)
    (monParams : MonitoringParameters) : Except String MonitoredItemCreateRequest :=
  applyFilter req (baseParams req monParams) monParams.dataChangeFilter

theorem check_eq_none_iff (f : DataChangeFilter) :
    checkDataChangeFilterParameters f = none ↔
      ((f.Trigger = "Status" ∨ f.Trigger = "StatusValue" ∨
          f.Trigger = "StatusValueTimestamp") ∧
       (f.DeadbandType = "Absolute" ∨ f.DeadbandType = "Percent") ∧
       ∃ v, f.DeadbandValue = some v ∧ 0 ≤ v) := by
  unfold checkDataChangeFilterParameters
  by_cases ht : f.Trigger = "Status" ∨ f.Trigger = "StatusValue" ∨
      f.Trigger = "StatusValueTimestamp"
  · have ht' : ¬ (f.Trigger ≠ "Status" ∧ f.Trigger ≠ "StatusValue" ∧
        f.Trigger ≠ "StatusValueTimestamp") := by
      rcases ht with h | h | h <;> simp [h]
    by_cases hd : f.DeadbandType = "Absolute" ∨ f.DeadbandType = "Percent"
    · have hd' : ¬ (f.DeadbandType ≠ "Absolute" ∧ f.DeadbandType ≠ "Percent") := by
        rcases hd with h | h <;> simp [h]
      cases hv : f.DeadbandValue with
      | none => simp [ht', hd', ht, hd]
      | some v =>
        by_cases hneg : v < 0
        · simp only [if_neg ht', if_neg hd', hneg, if_pos]
          simp [ht, hd, hneg, not_le.mpr hneg]
        · simp only [if_neg ht', if_neg hd', if_neg hneg]
          simp [ht, hd, not_lt.mp hneg]
    · have hd' : f.DeadbandType ≠ "Absolute" ∧ f.DeadbandType ≠ "Percent" := by
        constructor <;> intro h <;> exact hd (by simp [h])
      simp [ht', hd', hd]
  · have ht' : f.Trigger ≠ "Status" ∧ f.Trigger ≠ "StatusValue" ∧
        f.Trigger ≠ "StatusValueTimestamp" := by
      refine ⟨?_, ?_, ?_⟩ <;> intro h <;> exact ht (by simp [h])
    simp [ht', ht]

/-- **C4.** With a change filter present, translation fails iff the trigger is
outside the enumerated set, or the deadband kind is outside its set, or the
deadband value is missing or negative; every error message carries the
offending node identifier as the suffix `, node '<id>'`; a valid filter is
attached as a typed payload holding that trigger, deadband kind and deadband
value. -/
theorem c4_change_filter (req : MonitoredItemCreateRequest)
    (monParams : MonitoringParameters) (f : DataChangeFilter)
    (hf : monParams.dataChangeFilter = some f) :
    ((∃ e, assignConfigValuesToRequest req monParams = .error e) ↔
      ¬ ((f.Trigger = "Status" ∨ f.Trigger = "StatusValue" ∨
            f.Trigger = "StatusValueTimestamp") ∧
         (f.DeadbandType = "Absolute" ∨ f.DeadbandType = "Percent") ∧
         ∃ v, f.DeadbandValue = some v ∧ 0 ≤ v)) ∧
    (∀ e, assignConfigValuesToRequest req monParams = .error e →
      ∃ msg, e = msg ++ ", node '" ++ req.NodeID ++ "'") ∧
    (∀ v, f.DeadbandValue = some v → 0 ≤ v →
      (f.Trigger = "Status" ∨ f.Trigger = "StatusValue" ∨
        f.Trigger = "StatusValueTimestamp") →
      (f.DeadbandType = "Absolute" ∨ f.DeadbandType = "Percent") →
      ∃ p, assignConfigValuesToRequest req monParams = .ok p ∧
        p.NodeID = req.NodeID ∧
        p.RequestedParameters.Filter = some
          { Trigger := DataChangeTriggerFromString f.Trigger,
            DeadbandType := DeadbandTypeFromString f.DeadbandType,
            DeadbandValue := v }) := by
  refine ⟨?_, ?_, ?_⟩
  · constructor
    · rintro ⟨e, he⟩ hvalid
      have hc : checkDataChangeFilterParameters f = none := (check_eq_none_iff f).mpr hvalid
      simp only [assignConfigValuesToRequest, hf, applyFilter, hc] at he
      cases he
    · intro hinvalid
      cases hc : checkDataChangeFilterParameters f with
      | none => exact absurd ((check_eq_none_iff f).mp hc) hinvalid
      | some msg =>
        refine ⟨msg ++ ", node '" ++ req.NodeID ++ "'", ?_⟩
        simp only [assignConfigValuesToRequest, hf, applyFilter, hc]
  · intro e he
    cases hc : checkDataChangeFilterParameters f with
    | none =>
      simp only [assignConfigValuesToRequest, hf, applyFilter, hc] at he
      cases he
    | some msg =>
      simp only [assignConfigValuesToRequest, hf, applyFilter, hc] at he
      injection he with he
      exact ⟨msg, he.symm⟩
  · intro v hv hnn ht hd
    have hc : checkDataChangeFilterParameters f = none :=
      (check_eq_none_iff f).mpr ⟨ht, hd, v, hv, hnn⟩
    refine ⟨{ req with RequestedParameters :=
      { baseParams req monParams with Filter := some ⟨DataChangeTriggerFromString f.Trigger,
          DeadbandTypeFromString f.DeadbandType, v⟩ } }, ?_, rfl, rfl⟩
    simp only [assignConfigValuesToRequest, hf, applyFilter, hc, hv]
    rfl

/-- **C4, witness.** A valid filter (`StatusValue`, `Absolute`, deadband 5) is
attached as the typed payload, and a filter with a missing deadband value is
rejected with an error carrying the node id. -/
theorem c4_witness :
    (∃ p, assignConfigValuesToRequest
        { NodeID := "ns=3;s=T", ClientHandle := 0,
          RequestedParameters :=
            { SamplingInterval := 0, QueueSize := 10, DiscardOldest := true,
              Filter := none } }
        { SamplingInterval := 0, QueueSize := none, DiscardOldest := none,
          dataChangeFilter := some
            { Trigger := "StatusValue", DeadbandType := "Absolute",
              DeadbandValue := some 5 } } = .ok p ∧
      p.NodeID = "ns=3;s=T" ∧
      p.RequestedParameters.Filter = some
        { Trigger := .statusValue, DeadbandType := 1, DeadbandValue := 5 }) ∧
    (∃ e, assignConfigValuesToRequest
        { NodeID := "ns=3;s=T", ClientHandle := 0,
          RequestedParameters :=
            { SamplingInterval := 0, QueueSize := 10, DiscardOldest := true,
              Filter := none } }
        { SamplingInterval := 0, QueueSize := none, DiscardOldest := none,
          dataChangeFilter := some
            { Trigger := "StatusValue", DeadbandType := "Absolute",
              DeadbandValue := none } } = .error e) := by
  constructor
  · have h := (c4_change_filter
      { NodeID := "ns=3;s=T", ClientHandle := 0,
        RequestedParameters :=
          { SamplingInterval := 0, QueueSize := 10, DiscardOldest := true,
            Filter := none } }
      { SamplingInterval := 0, QueueSize := none, DiscardOldest := none,
        dataChangeFilter := some
          { Trigger := "StatusValue", DeadbandType := "Absolute",
            DeadbandValue := some 5 } }
      { Trigger := "StatusValue", DeadbandType := "Absolute",
        DeadbandValue := some 5 } rfl).2.2 5 rfl (by norm_num)
      (Or.inr (Or.inl rfl)) (Or.inl rfl)
    obtain ⟨p, hp, hnid, hfl⟩ := h
    exact ⟨p, hp, hnid, by rw [hfl]; rfl⟩
  · exact (c4_change_filter
      { NodeID := "ns=3;s=T", ClientHandle := 0,
        RequestedParameters :=
          { SamplingInterval := 0, QueueSize := 10, DiscardOldest := true,
            Filter := none } }
      { SamplingInterval := 0, QueueSize := none, DiscardOldest := none,
        dataChangeFilter := some
          { Trigger := "StatusValue", DeadbandType := "Absolute",
            DeadbandValue := none } }
      { Trigger := "StatusValue", DeadbandType := "Absolute",
        DeadbandValue := none } rfl).1.mpr (by
        rintro ⟨-, -, v, hv, -⟩
        cases hv)

/-! ## Data model of the notification processor -/

/-- Runtime values: what `ua.Variant.Value()` returns, what the last-value
cache stores, and what metric fields carry. `gNil` is the Go `nil` interface
value; `gLocalizedText` is a `*ua.LocalizedText` pointer; times are unix
nanosecond counts. -/
inductive GoVal
  | gNil
  | gBool (b : Bool)
  | gInt (n : Int)
  | gFloat (q : ℚ)
  | gString (s : String)
  | gTime (t : Int)
  | gLocalizedText (text : String)
deriving Repr, DecidableEq

/-- `ua.Variant.Type()` as determined by the held value (`ua.TypeID` numeric
values: Null 0, Boolean 1, Int64 8, Double 11, String 12, DateTime 13,
LocalizedText 21). -/
def goValTypeID : GoVal → Nat
  | .gNil => 0
  | .gBool _ => 1
  | .gInt _ => 8
  | .gFloat _ => 11
  | .gString _ => 12
  | .gTime _ => 13
  | .gLocalizedText _ => 21

/-- Modelled from the spec: `ua.TypeID.String()` with the fixed `TypeID`
prefix already stripped, as the optional `DataType` field renders it (the
protocol library and the strip call are outside `src/`). -/
def typeIDName : Nat → String
  | 0 => "Null"
  | 1 => "Boolean"
  | 8 => "Int64"
  | 11 => "Double"
  | 12 => "String"
  | 13 => "DateTime"
  | 21 => "LocalizedText"
  | _ => "Unknown"

/-- Modelled from the spec: `StatusCodeOK` of the shared OPC UA client (under
`plugins/common/opcua`, not in `src/`): status `0x0` (`StatusOK`) is always
considered valid and the workaround list `additional_valid_status_codes` adds
further codes (per the sample configuration shipped in the repository). -/
def StatusCodeOK (additionalValid : List Nat) (code : Nat) : Bool :=
  code == 0 || additionalValid.contains code

/-- Modelled from the spec: the human-readable rendering of a status code
(`ua.StatusCode.Error()` of the protocol library); the spec fixes code `0x0`
to `"OK (0x0)"`, other codes render with their hexadecimal value. -/
def statusCodeText (code : Nat) : String :=
  if code = 0 then "OK (0x0)"
  else "status (0x" ++ (Nat.toDigits 16 code).asString ++ ")"

/-- Modelled from the spec: `time.Time.Format` with the configured
timestamp-format layout, kept abstract as a layout-tagged rendering (the Go
time package is outside the repository). -/
def formatTime (layout : String) (t : Int) : String :=
  layout ++ "|" ++ toString t

/-- `ua.DataValue` as delivered for one item of a data-change notification. -/
structure DataValue where
  Value : Option GoVal
  Status : Nat
  ServerTimestamp : Int
  SourceTimestamp : Int
deriving Repr, DecidableEq

/-- `input.NodeValue`: one slot of the last-received-value cache. -/
structure NodeValue where
  TagName : String
  Value : GoVal
  Quality : Nat
  ServerTime : Int
  SourceTime : Int
  DataType : Nat
deriving Repr, DecidableEq

/-- The zero `NodeValue` (Go zero value of the struct). -/
def zeroNodeValue : NodeValue :=
  { TagName := "", Value := .gNil, Quality := 0, ServerTime := 0, SourceTime := 0,
    DataType := 0 }

/-- The fields of `OpcUAInputClient` the notification processor touches. -/
structure ClientState where
  Config : InputClientConfig
  NodeMetricMapping : List NodeMetricMapping
  NodeIDs : List String
  LastReceivedData : List NodeValue
deriving Repr, DecidableEq

/-- Field name of the mapping at an index, `""` out of range. -/
def fieldNameAt (c : ClientState) (nodeIdx : Nat) : String :=
  ((c.NodeMetricMapping.get? nodeIdx).map (fun m => m.Tag.FieldName)).getD ""

/-- The node-id rendering used in not-OK logs: the node id when the id list is
long enough, otherwise `63` — Go prints the fallback rune `'?'` through `%v`,
which renders its integer value 63. -/
def nodeIdAt (c : ClientState) (nodeIdx : Nat) : String :=
  if nodeIdx < c.NodeIDs.length then (c.NodeIDs.get? nodeIdx).getD "" else "63"

/-- `OpcUAInputClient.UpdateNodeValue`: the quality is stored first; a
non-good status logs an error and returns, leaving value, data type and both
timestamps untouched; a good status stores the value and its type when a value
is present (date-time values are reformatted as text with the configured
layout) and always copies both timestamps. -/
def UpdateNodeValue (c : ClientState) (nodeIdx : Nat) (d : DataValue) :
    ClientState × List String :=
  let lv := c.LastReceivedData.getD nodeIdx zeroNodeValue
  let lv₁ := { lv with Quality := d.Status }
  if StatusCodeOK c.Config.AdditionalValidStatusCodes d.Status = false then
    ({ c with LastReceivedData := c.LastReceivedData.set nodeIdx lv₁ },
     ["status not OK for node " ++ fieldNameAt c nodeIdx ++ " (" ++
       nodeIdAt c nodeIdx ++ "): " ++ statusCodeText d.Status])
  else
    let lv₂ := match d.Value with
      | none => lv₁
      | some v =>
        let dt := goValTypeID v
        let newVal :=
          if dt = 13 then
            match v with
            | .gTime t => GoVal.gString (formatTime c.Config.TimestampFormat t)
            | w => w
          else v
        { lv₁ with DataType := dt, Value := newVal }
    let lv₃ :=
      { lv₂ with ServerTime := d.ServerTimestamp, SourceTime := d.SourceTimestamp }
    ({ c with LastReceivedData := c.LastReceivedData.set nodeIdx lv₃ }, [])

/-- A produced measurement: name, tag map, field map, timestamp. -/
structure Metric where
  name : String
  tags : List (String × String)
  fields : List (String × GoVal)
  time : Int
deriving Repr, DecidableEq

/-- The zero `NodeMetricMapping` (an out-of-range index in Go would panic;
the model totalizes with the zero value). -/
def zeroNMM : NodeMetricMapping :=
  { Tag := { FieldName := "", Namespace := "", IdentifierType := "",
             Identifier := "", TagsSlice := [], DefaultTags := [],
             MonitoringParams := defaultMonParams },
    idStr := "", metricName := "", MetricTags := [] }

/-- The tag map built by `MetricForNode`: the `id` tag first, then the
mapping's merged tags written over it. -/
def metricTags (nmm : NodeMetricMapping) : List (String × String) :=
  insertAll [("id", nmm.idStr)] nmm.MetricTags

/-- The field map built by `MetricForNode`: the cached value under the field
name, the human-readable quality text, and the cached type name when the
optional-fields configuration requests `DataType`. -/
def metricFields (cfg : InputClientConfig) (nmm : NodeMetricMapping) (lv : NodeValue) :
    List (String × GoVal) :=
  let fields₀ := insertAll ([] : List (String × GoVal))
    [(nmm.Tag.FieldName, lv.Value),
     ("Quality", .gString (statusCodeText lv.Quality))]
  if cfg.OptionalFields.contains "DataType" then
    mapInsert fields₀ "DataType" (.gString (typeIDName lv.DataType))
  else fields₀

/-- `OpcUAInputClient.MetricForNode`: a not-OK quality adds a debug trace but
does not suppress the metric; the timestamp follows the configured source with
the local time `now` as default. -/
def MetricForNode (c : ClientState) (now : Int) (nodeIdx : Nat) :
    Metric × List String :=
  let nmm := c.NodeMetricMapping.getD nodeIdx zeroNMM
  let lv := c.LastReceivedData.getD nodeIdx zeroNodeValue
  let logs :=
    if StatusCodeOK c.Config.AdditionalValidStatusCodes lv.Quality then []
    else
      let mp := newMP nmm
      ["status not OK for node \"" ++ mp.fieldName ++ "\"(metric name \"" ++
        mp.metricName ++ "\", tags \"" ++ mp.tags ++ "\")"]
  let t :=
    if c.Config.Timestamp = "server" then lv.ServerTime
    else if c.Config.Timestamp = "source" then lv.SourceTime
    else now
  ({ name := nmm.metricName, tags := metricTags nmm,
     fields := metricFields c.Config nmm lv, time := t }, logs)

/-- One entry of a `ua.DataChangeNotification`: the client handle and the
delivered data value. -/
structure MonitoredItemNotification where
  ClientHandle : Nat
  Value : DataValue
deriving Repr, DecidableEq

/-- The data-change arm of `processReceivedNotifications`: the items of one
notification are processed in order — each updates the cache slot at its
client handle and immediately emits one metric for that slot, so the metric
list follows item order (the per-item value-changed debug trace is elided; the
not-OK traces of the update and of the metric construction are kept). -/
def processDataChange (c : ClientState) (now : Int) :
    List MonitoredItemNotification → ClientState × List Metric × List String
  | [] => (c, [], [])
  | it :: rest =>
    let r₁ := UpdateNodeValue c it.ClientHandle it.Value
    let r₂ := MetricForNode r₁.1 now it.ClientHandle
    let rrest := processDataChange r₁.1 now rest
    (rrest.1, r₂.1 :: rrest.2.1, (r₁.2 ++ r₂.2) ++ rrest.2.2)

/-! ## C7: cache update and emission on data-change notifications -/

theorem getD_set_self {β : Type} (l : List β) (n : Nat) (a d : β)
    (h : n < l.length) : (l.set n a).getD n d = a := by
  induction l generalizing n with
  | nil => simp at h
  | cons x xs ih =>
    cases n with
    | zero => rfl
    | succ m =>
      simp only [List.set_cons_succ, List.getD_cons_succ]
      exact ih m (by simpa using h)

theorem UpdateNodeValue_bad (c : ClientState) (nodeIdx : Nat) (d : DataValue)
    (hbad : StatusCodeOK c.Config.AdditionalValidStatusCodes d.Status = false) :
    UpdateNodeValue c nodeIdx d =
      ({ c with
         LastReceivedData :=
           c.LastReceivedData.set nodeIdx
             { c.LastReceivedData.getD nodeIdx zeroNodeValue with
               Quality := d.Status } },
       ["status not OK for node " ++ fieldNameAt c nodeIdx ++ " (" ++
         nodeIdAt c nodeIdx ++ "): " ++ statusCodeText d.Status]) := by
  unfold UpdateNodeValue
  rw [hbad]
  rfl

theorem UpdateNodeValue_good (c : ClientState) (nodeIdx : Nat) (d : DataValue)
    (hok : StatusCodeOK c.Config.AdditionalValidStatusCodes d.Status = true) :
    UpdateNodeValue c nodeIdx d =
      ({ c with
         LastReceivedData :=
           c.LastReceivedData.set nodeIdx
             { (match d.Value with
             | none =>
               { c.LastReceivedData.getD nodeIdx zeroNodeValue with
                 Quality := d.Status }
             | some v =>
               { c.LastReceivedData.getD nodeIdx zeroNodeValue with
                 Quality := d.Status, DataType := goValTypeID v,
                 Value :=
                   if goValTypeID v = 13 then
                     match v with
                     | .gTime t => GoVal.gString (formatTime c.Config.TimestampFormat t)
                     | w => w
                   else v }) with
               ServerTime := d.ServerTimestamp,
               SourceTime := d.SourceTimestamp } }, []) := by
  unfold UpdateNodeValue
  rw [hok]
  rfl

/-- A client with one mapping `temp` at `ns=3;s=Temperature` whose slot
already caches value `3.0` with good quality and server/source time 100. -/
def c7client : ClientState :=
  { Config := rootOnlyConfig "opcua" [plainNode "temp" "3" "s" "Temperature" []],
    NodeMetricMapping :=
      [{ Tag := plainNode "temp" "3" "s" "Temperature" [],
         idStr := "ns=3;s=Temperature", metricName := "opcua", MetricTags := [] }],
    NodeIDs := ["ns=3;s=Temperature"],
    LastReceivedData :=
      [{ TagName := "temp", Value := .gFloat 3, Quality := 0, ServerTime := 100,
         SourceTime := 100, DataType := 11 }] }

/-- **C7, counterexample.** A data-change item with a non-good status
(`0x80000000`) delivering value `5.0` and timestamps `200` updates only the
quality of the slot: the cached value stays `3.0` and both timestamps stay
`100`, while the claim says value and both timestamps are updated for every
item; one metric is still emitted. -/
theorem c7_counterexample :
    ((processDataChange c7client 999
        [⟨0, ⟨some (.gFloat 5), 2147483648, 200, 200⟩⟩]).1.LastReceivedData.getD 0
        zeroNodeValue).Quality = 2147483648 ∧
    ((processDataChange c7client 999
        [⟨0, ⟨some (.gFloat 5), 2147483648, 200, 200⟩⟩]).1.LastReceivedData.getD 0
        zeroNodeValue).Value = .gFloat 3 ∧
    GoVal.gFloat 3 ≠ GoVal.gFloat 5 ∧
    ((processDataChange c7client 999
        [⟨0, ⟨some (.gFloat 5), 2147483648, 200, 200⟩⟩]).1.LastReceivedData.getD 0
        zeroNodeValue).ServerTime = 100 ∧
    (100 : Int) ≠ 200 ∧
    (processDataChange c7client 999
        [⟨0, ⟨some (.gFloat 5), 2147483648, 200, 200⟩⟩]).2.1.length = 1 := by
  exact ⟨rfl, rfl, by decide, rfl, by decide, rfl⟩

/-- **C7 (amended).** For every item of a data-change notification the slot at
the item's handle always takes the notification's quality code; when the
status is good the slot also takes both timestamps and — when a value is
present — the value and its declared type, with date/time values reformatted
as text using the configured timestamp-format string; when the status is
non-good the cached value, data type and both timestamps are left unchanged
and an error is logged. Exactly one measurement is emitted per item, and items
are processed in the order they appear within the notification. -/
theorem c7_amended :
    (∀ (c : ClientState) (nodeIdx : Nat) (d : DataValue),
       StatusCodeOK c.Config.AdditionalValidStatusCodes d.Status = true →
       nodeIdx < c.LastReceivedData.length →
       (((UpdateNodeValue c nodeIdx d).1.LastReceivedData.getD nodeIdx
           zeroNodeValue).Quality = d.Status ∧
        ((UpdateNodeValue c nodeIdx d).1.LastReceivedData.getD nodeIdx
           zeroNodeValue).ServerTime = d.ServerTimestamp ∧
        ((UpdateNodeValue c nodeIdx d).1.LastReceivedData.getD nodeIdx
           zeroNodeValue).SourceTime = d.SourceTimestamp) ∧
       (∀ v, d.Value = some v →
         ((UpdateNodeValue c nodeIdx d).1.LastReceivedData.getD nodeIdx
            zeroNodeValue).DataType = goValTypeID v ∧
         ((UpdateNodeValue c nodeIdx d).1.LastReceivedData.getD nodeIdx
            zeroNodeValue).Value =
           (if goValTypeID v = 13 then
              match v with
              | .gTime t => GoVal.gString (formatTime c.Config.TimestampFormat t)
              | w => w
            else v))) ∧
    (∀ (c : ClientState) (nodeIdx : Nat) (d : DataValue),
       StatusCodeOK c.Config.AdditionalValidStatusCodes d.Status = false →
       nodeIdx < c.LastReceivedData.length →
       (((UpdateNodeValue c nodeIdx d).1.LastReceivedData.getD nodeIdx
           zeroNodeValue).Quality = d.Status ∧
        ((UpdateNodeValue c nodeIdx d).1.LastReceivedData.getD nodeIdx
           zeroNodeValue).Value =
          (c.LastReceivedData.getD nodeIdx zeroNodeValue).Value ∧
        ((UpdateNodeValue c nodeIdx d).1.LastReceivedData.getD nodeIdx
           zeroNodeValue).DataType =
          (c.LastReceivedData.getD nodeIdx zeroNodeValue).DataType ∧
        ((UpdateNodeValue c nodeIdx d).1.LastReceivedData.getD nodeIdx
           zeroNodeValue).ServerTime =
          (c.LastReceivedData.getD nodeIdx zeroNodeValue).ServerTime ∧
        ((UpdateNodeValue c nodeIdx d).1.LastReceivedData.getD nodeIdx
           zeroNodeValue).SourceTime =
          (c.LastReceivedData.getD nodeIdx zeroNodeValue).SourceTime) ∧
       (UpdateNodeValue c nodeIdx d).2 ≠ []) ∧
    (∀ (c : ClientState) (now : Int) (items : List MonitoredItemNotification),
       (processDataChange c now items).2.1.length = items.length) ∧
    (∀ (c : ClientState) (now : Int) (it : MonitoredItemNotification)
       (rest : List MonitoredItemNotification),
       processDataChange c now (it :: rest) =
         ((processDataChange (UpdateNodeValue c it.ClientHandle it.Value).1 now
             rest).1,
          (MetricForNode (UpdateNodeValue c it.ClientHandle it.Value).1 now
             it.ClientHandle).1 ::
            (processDataChange (UpdateNodeValue c it.ClientHandle it.Value).1 now
               rest).2.1,
          ((UpdateNodeValue c it.ClientHandle it.Value).2 ++
             (MetricForNode (UpdateNodeValue c it.ClientHandle it.Value).1 now
               it.ClientHandle).2) ++
            (processDataChange (UpdateNodeValue c it.ClientHandle it.Value).1 now
               rest).2.2)) := by
  refine ⟨?_, ?_, ?_, ?_⟩
  · intro c nodeIdx d hok hlen
    rw [UpdateNodeValue_good c nodeIdx d hok]
    rw [getD_set_self _ _ _ _ hlen]
    refine ⟨⟨?_, rfl, rfl⟩, ?_⟩
    · cases hv : d.Value with
      | none => simp [hv]
      | some v => simp [hv]
    · intro v hv
      constructor <;> simp [hv]
  · intro c nodeIdx d hbad hlen
    rw [UpdateNodeValue_bad c nodeIdx d hbad]
    rw [getD_set_self _ _ _ _ hlen]
    exact ⟨⟨rfl, rfl, rfl, rfl, rfl⟩, by simp⟩
  · intro c now items
    induction items generalizing c with
    | nil => rfl
    | cons it rest ih =>
      simp only [processDataChange, List.length_cons]
      rw [ih]
  · intro c now it rest
    rfl

/-- **C7, witness.** The good-status branch at a float value `79.0`, the
non-good branch at status `0x80000000`, the one-metric-per-item count on a
two-item notification and the head decomposition on a singleton. -/
theorem c7_witness :
    ((UpdateNodeValue c7client 0
        ⟨some (.gFloat 79), 0, 200, 300⟩).1.LastReceivedData.getD 0
        zeroNodeValue).Value = .gFloat 79 ∧
    ((UpdateNodeValue c7client 0
        ⟨some (.gFloat 79), 0, 200, 300⟩).1.LastReceivedData.getD 0
        zeroNodeValue).ServerTime = 200 ∧
    ((UpdateNodeValue c7client 0
        ⟨some (.gFloat 5), 2147483648, 200, 200⟩).1.LastReceivedData.getD 0
        zeroNodeValue).Value = .gFloat 3 ∧
    (processDataChange c7client 999
        [⟨0, ⟨some (.gFloat 1), 0, 1, 1⟩⟩, ⟨0, ⟨some (.gFloat 2), 0, 2, 2⟩⟩]).2.1.length = 2 := by
  have hgood := (c7_amended.1 c7client 0 ⟨some (.gFloat 79), 0, 200, 300⟩
    (by decide) (by decide))
  have hval := (hgood.2 (.gFloat 79) rfl).2
  have hbad := (c7_amended.2.1 c7client 0 ⟨some (.gFloat 5), 2147483648, 200, 200⟩
    (by decide) (by decide))
  have hlen := c7_amended.2.2.1 c7client 999
    [⟨0, ⟨some (.gFloat 1), 0, 1, 1⟩⟩, ⟨0, ⟨some (.gFloat 2), 0, 2, 2⟩⟩]
  exact ⟨hval.trans (by decide), hgood.1.2.1, hbad.1.2.1.trans rfl, hlen⟩

/-! ## C8: measurement construction -/

instance : Inhabited Metric :=
  ⟨{ name := "", tags := [], fields := [], time := 0 }⟩

/-- The C8 scenario client before the data change: one mapping `temp` at
`ns=3;s=Temperature`, merged tags empty, empty cache slot. -/
def c8client : ClientState :=
  { Config := rootOnlyConfig "opcua" [plainNode "temp" "3" "s" "Temperature" []],
    NodeMetricMapping :=
      [{ Tag := plainNode "temp" "3" "s" "Temperature" [],
         idStr := "ns=3;s=Temperature", metricName := "opcua", MetricTags := [] }],
    NodeIDs := ["ns=3;s=Temperature"],
    LastReceivedData := [{ zeroNodeValue with TagName := "temp" }] }

/-- The C8 client with the optional `DataType` field requested and the slot
already holding the good-status value `79.0` of type Double. -/
def c8dtClient : ClientState :=
  { c8client with
    Config := { c8client.Config with OptionalFields := ["DataType"] },
    LastReceivedData :=
      [{ TagName := "temp", Value := .gFloat 79, Quality := 0, ServerTime := 200,
         SourceTime := 300, DataType := 11 }] }

/-- **C8, counterexample.** When the optional-fields configuration requests
`DataType`, the emitted field map carries a third `DataType` field, so it is
not the claimed two-entry map `\x7bfield-name: value, Quality: text\x7d`. -/
theorem c8_counterexample :
    mlook "DataType" (MetricForNode c8dtClient 999 0).1.fields =
      some (.gString "Double") ∧
    mlook "DataType"
      (insertAll ([] : List (String × GoVal))
        [("temp", .gFloat 79), ("Quality", .gString "OK (0x0)")]) = none ∧
    (MetricForNode c8dtClient 999 0).1.fields ≠
      insertAll ([] : List (String × GoVal))
        [("temp", .gFloat 79), ("Quality", .gString "OK (0x0)")] := by
  exact ⟨by decide, by decide, by decide⟩

/-- **C8 (amended).** The tag map of an emitted measurement is
`\x7bid: identifier string\x7d` united with the mapping's merged tags (a merged
tag wins over the `id` tag on collision), and the field map is
`\x7bfield-name: cached value, Quality: human-readable status text\x7d`, plus a
`DataType` field holding the cached type name exactly when the optional-fields
configuration requests it. In the scenario — one mapping named `temp` with
identifier `ns=3;s=Temperature`, a good-status data change delivering `79.0`
— the emitted measurement has field `temp = 79.0`, field
`Quality = "OK (0x0)"` and tag `id = ns=3;s=Temperature`. -/
theorem c8_metric_shape :
    (∀ nmm : NodeMetricMapping, (nmm.MetricTags.map Prod.fst).Nodup →
       ∀ k, mlook k (metricTags nmm) =
         match mlook k nmm.MetricTags with
         | some v => some v
         | none => if k = "id" then some nmm.idStr else none) ∧
    (∀ (cfg : InputClientConfig) (nmm : NodeMetricMapping) (lv : NodeValue),
       nmm.Tag.FieldName ≠ "Quality" →
       cfg.OptionalFields.contains "DataType" = false →
       (mlook nmm.Tag.FieldName (metricFields cfg nmm lv) = some lv.Value ∧
        mlook "Quality" (metricFields cfg nmm lv) =
          some (.gString (statusCodeText lv.Quality)) ∧
        ∀ k, k ≠ nmm.Tag.FieldName → k ≠ "Quality" →
          mlook k (metricFields cfg nmm lv) = none)) ∧
    (∀ (cfg : InputClientConfig) (nmm : NodeMetricMapping) (lv : NodeValue),
       cfg.OptionalFields.contains "DataType" = true →
       mlook "DataType" (metricFields cfg nmm lv) =
         some (.gString (typeIDName lv.DataType))) ∧
    (∀ (c : ClientState) (now : Int) (nodeIdx : Nat),
       (MetricForNode c now nodeIdx).1.name =
         (c.NodeMetricMapping.getD nodeIdx zeroNMM).metricName ∧
       (MetricForNode c now nodeIdx).1.tags =
         metricTags (c.NodeMetricMapping.getD nodeIdx zeroNMM) ∧
       (MetricForNode c now nodeIdx).1.fields =
         metricFields c.Config (c.NodeMetricMapping.getD nodeIdx zeroNMM)
           (c.LastReceivedData.getD nodeIdx zeroNodeValue)) ∧
    (mlook "temp"
       (processDataChange c8client 999
         [⟨0, ⟨some (.gFloat 79), 0, 200, 300⟩⟩]).2.1.headI.fields =
       some (.gFloat 79) ∧
     mlook "Quality"
       (processDataChange c8client 999
         [⟨0, ⟨some (.gFloat 79), 0, 200, 300⟩⟩]).2.1.headI.fields =
       some (.gString "OK (0x0)") ∧
     mlook "id"
       (processDataChange c8client 999
         [⟨0, ⟨some (.gFloat 79), 0, 200, 300⟩⟩]).2.1.headI.tags =
       some "ns=3;s=Temperature") := by
  refine ⟨?_, ?_, ?_, ?_, by decide, by decide, by decide⟩
  · intro nmm hn k
    unfold metricTags
    rw [mlook_insertAll _ _ _ hn]
    cases hm : mlook k nmm.MetricTags with
    | some v => rfl
    | none =>
      by_cases hk : k = "id"
      · subst hk
        simp [mlook]
      · have hk' : ¬ ("id" = k) := fun he => hk he.symm
        simp [mlook, hk, hk']
  · intro cfg nmm lv hQ hopt
    have hQ' : ¬ (nmm.Tag.FieldName = "Quality") := hQ
    have hfe : metricFields cfg nmm lv =
        [(nmm.Tag.FieldName, lv.Value),
         ("Quality", .gString (statusCodeText lv.Quality))] := by
      unfold metricFields
      rw [hopt]
      simp [insertAll, mapInsert, hQ']
    rw [hfe]
    refine ⟨by simp [mlook], by simp [mlook, hQ'], ?_⟩
    intro k hk1 hk2
    have hk1' : ¬ (nmm.Tag.FieldName = k) := fun he => hk1 he.symm
    have hk2' : ¬ ("Quality" = k) := fun he => hk2 he.symm
    simp [mlook, hk1', hk2']
  · intro cfg nmm lv hopt
    unfold metricFields
    rw [hopt]
    simp only [if_true]
    rw [mlook_mapInsert]
    simp
  · intro c now nodeIdx
    exact ⟨rfl, rfl, rfl⟩

/-- The C8 scenario mapping and cached slot after the good `79.0` delivery. -/
def c8nmm : NodeMetricMapping :=
  { Tag := plainNode "temp" "3" "s" "Temperature" [], idStr := "ns=3;s=Temperature",
    metricName := "opcua", MetricTags := [] }

/-- The C8 cache slot holding the good-status value `79.0` of type Double. -/
def c8lv : NodeValue :=
  { TagName := "temp", Value := .gFloat 79, Quality := 0, ServerTime := 200,
    SourceTime := 300, DataType := 11 }

/-- **C8, witness.** The tag shape at the scenario mapping (lookup of `id`),
the two-field map without `DataType`, and the `DataType` field when
requested. -/
theorem c8_witness :
    mlook "id" (metricTags c8nmm) = some "ns=3;s=Temperature" ∧
    mlook "temp" (metricFields (rootOnlyConfig "opcua" []) c8nmm c8lv) =
      some (.gFloat 79) ∧
    mlook "DataType" (metricFields c8dtClient.Config c8nmm c8lv) =
      some (.gString "Double") := by
  have h1 := c8_metric_shape.1 c8nmm (by decide) "id"
  have h2 := (c8_metric_shape.2.1 (rootOnlyConfig "opcua" []) c8nmm c8lv
    (by decide) rfl).1
  have h3 := c8_metric_shape.2.2.1 c8dtClient.Config c8nmm c8lv rfl
  exact ⟨h1.trans (by decide), h2, h3.trans (by decide)⟩

/-! ## C9: event notification processing -/

/-- Modelled from the spec: `input.EventNodeMetricMapping` (declared in the
shared input package outside `src/`), restricted to the fields the processor
reads — the monitored node id (string rendering) and the configured event
field names. -/
structure EventNodeMetricMapping where
  NodeID : String
  Fields : List String
deriving Repr, DecidableEq

/-- One entry of a `ua.EventNotificationList`: the client handle and the
runtime values of the selected event fields. -/
structure EventFieldList where
  ClientHandle : Nat
  EventFields : List GoVal
deriving Repr, DecidableEq

/-- One iteration of the per-field loop in the event arm of
`processReceivedNotifications`: nil values are skipped with a warning, the
`Message` field is unwrapped from localized text or dropped with a warning,
every other value is stored as-is. -/
def eventFieldStep (acc : List (String × GoVal) × List String)
    (nameVal : String × GoVal) : List (String × GoVal) × List String :=
  match nameVal.2 with
  | .gNil => (acc.1, acc.2 ++ ["Field " ++ nameVal.1 ++ " has nil value"])
  | value =>
    if nameVal.1 = "Message" then
      match value with
      | .gLocalizedText text => (mapInsert acc.1 "Message" (.gString text), acc.2)
      | _ => (acc.1, acc.2 ++ ["Message field is not of type *ua.LocalizedText"])
    else (mapInsert acc.1 nameVal.1 value, acc.2)

/-- The event arm of `processReceivedNotifications` for one event: resolve the
handle, walk the configured field names paired positionally with the delivered
values (the Go out-of-range panic is not modelled: extra values are dropped),
and emit one measurement named `opcua_event` tagged with the node id and the
endpoint, timestamped with the processing time. -/
def processEvent (endpoint : String)
    (handleMap : List (Nat × EventNodeMetricMapping)) (now : Int)
    (event : EventFieldList) : Metric × List String :=
  let node := (mlook event.ClientHandle handleMap).getD ⟨"", []⟩
  let r := (node.Fields.zip event.EventFields).foldl eventFieldStep ([], [])
  ({ name := "opcua_event",
     tags := [("node_id", node.NodeID), ("source", endpoint)],
     fields := r.1, time := now }, r.2)

/-- The field value the per-field loop emits for one name/value pair, `none`
when the pair is skipped. -/
def eventEmittedVal (p : String × GoVal) : Option GoVal :=
  match p.2 with
  | .gNil => none
  | .gLocalizedText text =>
    if p.1 = "Message" then some (.gString text) else some (.gLocalizedText text)
  | v => if p.1 = "Message" then none else some v

/-- The field-map entry the per-field loop emits for one name/value pair. -/
def eventEmitted (p : String × GoVal) : Option (String × GoVal) :=
  (eventEmittedVal p).map (fun v => (p.1, v))

/-- The warning the per-field loop logs for one name/value pair. -/
def eventWarn (p : String × GoVal) : Option String :=
  match p.2 with
  | .gNil => some ("Field " ++ p.1 ++ " has nil value")
  | .gLocalizedText _ => none
  | _ =>
    if p.1 = "Message" then some "Message field is not of type *ua.LocalizedText"
    else none

theorem mapInsert_eq_append (m : List (κ × α)) (k : κ) (v : α)
    (h : k ∉ m.map Prod.fst) : mapInsert m k v = m ++ [(k, v)] := by
  induction m with
  | nil => rfl
  | cons p rest ih =>
    simp only [List.map_cons, List.mem_cons, not_or] at h
    have : ¬ (p.1 = k) := fun he => h.1 he.symm
    simp [mapInsert, this, ih h.2]

theorem eventFieldStep_eq (fs : List (String × GoVal)) (ws : List String)
    (p : String × GoVal) (hdp : p.1 ∉ fs.map Prod.fst) :
    eventFieldStep (fs, ws) p =
      ((match eventEmitted p with
        | some q => fs ++ [q]
        | none => fs),
       ws ++ (eventWarn p).toList) := by
  cases hv : p.2 with
  | gNil => simp [eventFieldStep, eventEmitted, eventEmittedVal, eventWarn, hv]
  | gLocalizedText text =>
    by_cases hM : p.1 = "Message"
    · have hdp' : "Message" ∉ fs.map Prod.fst := hM ▸ hdp
      simp [eventFieldStep, eventEmitted, eventEmittedVal, eventWarn, hv, hM,
        mapInsert_eq_append _ _ _ hdp']
    · simp [eventFieldStep, eventEmitted, eventEmittedVal, eventWarn, hv, hM,
        mapInsert_eq_append _ _ _ hdp]
  | gBool b =>
    by_cases hM : p.1 = "Message" <;>
      simp [eventFieldStep, eventEmitted, eventEmittedVal, eventWarn, hv, hM,
        mapInsert_eq_append _ _ _ hdp]
  | gInt n =>
    by_cases hM : p.1 = "Message" <;>
      simp [eventFieldStep, eventEmitted, eventEmittedVal, eventWarn, hv, hM,
        mapInsert_eq_append _ _ _ hdp]
  | gFloat q =>
    by_cases hM : p.1 = "Message" <;>
      simp [eventFieldStep, eventEmitted, eventEmittedVal, eventWarn, hv, hM,
        mapInsert_eq_append _ _ _ hdp]
  | gString s =>
    by_cases hM : p.1 = "Message" <;>
      simp [eventFieldStep, eventEmitted, eventEmittedVal, eventWarn, hv, hM,
        mapInsert_eq_append _ _ _ hdp]
  | gTime t =>
    by_cases hM : p.1 = "Message" <;>
      simp [eventFieldStep, eventEmitted, eventEmittedVal, eventWarn, hv, hM,
        mapInsert_eq_append _ _ _ hdp]

theorem eventEmitted_key (p q : String × GoVal) (h : eventEmitted p = some q) :
    q.1 = p.1 := by
  unfold eventEmitted at h
  cases hv : eventEmittedVal p with
  | none =>
    rw [hv] at h
    cases h
  | some v =>
    rw [hv] at h
    injection h with h
    rw [← h]

theorem foldl_eventFieldStep (pairs : List (String × GoVal))
    (fs : List (String × GoVal)) (ws : List String)
    (hn : (pairs.map Prod.fst).Nodup)
    (hdisj : ∀ k, k ∈ pairs.map Prod.fst → k ∉ fs.map Prod.fst) :
    pairs.foldl eventFieldStep (fs, ws) =
      (fs ++ pairs.filterMap eventEmitted, ws ++ pairs.filterMap eventWarn) := by
  induction pairs generalizing fs ws with
  | nil => simp
  | cons p rest ih =>
    simp only [List.map_cons, List.nodup_cons] at hn
    have hdp : p.1 ∉ fs.map Prod.fst := hdisj p.1 (by simp)
    have hdisjRest : ∀ k, k ∈ rest.map Prod.fst → k ∉ fs.map Prod.fst := by
      intro k hk
      exact hdisj k (by simp [hk])
    rw [List.foldl_cons, eventFieldStep_eq fs ws p hdp]
    cases he : eventEmitted p with
    | none =>
      rw [ih fs (ws ++ (eventWarn p).toList) hn.2 hdisjRest]
      cases hw : eventWarn p <;>
        simp [List.filterMap_cons, he, hw, List.append_assoc]
    | some q =>
      have hq : q.1 = p.1 := eventEmitted_key p q he
      have hdisj2 : ∀ k, k ∈ rest.map Prod.fst → k ∉ (fs ++ [q]).map Prod.fst := by
        intro k hk
        simp only [List.map_append, List.mem_append, List.map_cons, List.map_nil,
          List.mem_singleton, not_or]
        refine ⟨hdisjRest k hk, ?_⟩
        intro hkq
        rw [hkq, hq] at hk
        exact hn.1 hk
      rw [ih (fs ++ [q]) (ws ++ (eventWarn p).toList) hn.2 hdisj2]
      cases hw : eventWarn p <;>
        simp [List.filterMap_cons, he, hw, List.append_assoc]

theorem mem_keys_filterMap_eventEmitted (l : List (String × GoVal)) (k : String)
    (h : k ∈ (l.filterMap eventEmitted).map Prod.fst) : k ∈ l.map Prod.fst := by
  simp only [List.mem_map] at h
  obtain ⟨q, hq, hk⟩ := h
  rw [List.mem_filterMap] at hq
  obtain ⟨p, hp, he⟩ := hq
  have := eventEmitted_key p q he
  exact List.mem_map.mpr ⟨p, hp, by rw [← hk, this]⟩

theorem nodup_keys_filterMap_eventEmitted (l : List (String × GoVal))
    (h : (l.map Prod.fst).Nodup) : ((l.filterMap eventEmitted).map Prod.fst).Nodup := by
  induction l with
  | nil => simp
  | cons p rest ih =>
    simp only [List.map_cons, List.nodup_cons] at h
    cases he : eventEmitted p with
    | none => simp only [List.filterMap_cons, he]; exact ih h.2
    | some q =>
      simp only [List.filterMap_cons, he, List.map_cons, List.nodup_cons]
      refine ⟨?_, ih h.2⟩
      intro hmem
      have := mem_keys_filterMap_eventEmitted rest q.1 hmem
      rw [eventEmitted_key p q he] at this
      exact h.1 this

theorem eventEmitted_message_none (v : GoVal) (hnil : v ≠ .gNil)
    (hlt : ∀ t, v ≠ .gLocalizedText t) : eventEmitted ("Message", v) = none := by
  unfold eventEmitted eventEmittedVal
  cases v with
  | gNil => exact absurd rfl hnil
  | gLocalizedText t => exact absurd rfl (hlt t)
  | gBool b => simp
  | gInt n => simp
  | gFloat q => simp
  | gString s => simp
  | gTime t => simp

theorem eventWarn_message (v : GoVal) (hnil : v ≠ .gNil)
    (hlt : ∀ t, v ≠ .gLocalizedText t) :
    eventWarn ("Message", v) = some "Message field is not of type *ua.LocalizedText" := by
  unfold eventWarn
  cases v with
  | gNil => exact absurd rfl hnil
  | gLocalizedText t => exact absurd rfl (hlt t)
  | gBool b => simp
  | gInt n => simp
  | gFloat q => simp
  | gString s => simp
  | gTime t => simp

theorem eventEmitted_other (k : String) (v : GoVal) (hnil : v ≠ .gNil)
    (hk : k ≠ "Message") : eventEmitted (k, v) = some (k, v) := by
  unfold eventEmitted eventEmittedVal
  cases v with
  | gNil => exact absurd rfl hnil
  | gLocalizedText t => simp [hk]
  | gBool b => simp [hk]
  | gInt n => simp [hk]
  | gFloat q => simp [hk]
  | gString s => simp [hk]
  | gTime t => simp [hk]

/-- **C9.** For every event whose handle resolves to a node mapping with
pairwise-distinct configured field names matching the delivered values in
number: the emitted measurement is named `opcua_event`, tagged with the
monitored node's identifier string and the configured endpoint, timestamped
with the processing time; its field map and the recorded warnings are exactly
determined pair-by-pair — a nil value is skipped with a warning, a `Message`
field whose value is not of the localized-text shape is omitted with a warning
while every other non-nil field is included as-is. -/
theorem c9_event_processing :
    (∀ (endpoint : String) (handleMap : List (Nat × EventNodeMetricMapping))
       (now : Int) (event : EventFieldList) (node : EventNodeMetricMapping),
       mlook event.ClientHandle handleMap = some node →
       node.Fields.Nodup → node.Fields.length = event.EventFields.length →
       ((processEvent endpoint handleMap now event).1.name = "opcua_event" ∧
        (processEvent endpoint handleMap now event).1.tags =
          [("node_id", node.NodeID), ("source", endpoint)] ∧
        (processEvent endpoint handleMap now event).1.time = now) ∧
       (processEvent endpoint handleMap now event).1.fields =
         (node.Fields.zip event.EventFields).filterMap eventEmitted ∧
       (processEvent endpoint handleMap now event).2 =
         (node.Fields.zip event.EventFields).filterMap eventWarn) ∧
    (∀ (endpoint : String) (handleMap : List (Nat × EventNodeMetricMapping))
       (now : Int) (event : EventFieldList) (node : EventNodeMetricMapping)
       (v : GoVal),
       mlook event.ClientHandle handleMap = some node →
       node.Fields.Nodup → node.Fields.length = event.EventFields.length →
       ("Message", v) ∈ node.Fields.zip event.EventFields →
       v ≠ .gNil → (∀ t, v ≠ .gLocalizedText t) →
       mlook "Message" (processEvent endpoint handleMap now event).1.fields = none ∧
       "Message field is not of type *ua.LocalizedText" ∈
         (processEvent endpoint handleMap now event).2) ∧
    (∀ (endpoint : String) (handleMap : List (Nat × EventNodeMetricMapping))
       (now : Int) (event : EventFieldList) (node : EventNodeMetricMapping)
       (k : String) (v : GoVal),
       mlook event.ClientHandle handleMap = some node →
       node.Fields.Nodup → node.Fields.length = event.EventFields.length →
       (k, v) ∈ node.Fields.zip event.EventFields →
       v ≠ .gNil → k ≠ "Message" →
       mlook k (processEvent endpoint handleMap now event).1.fields = some v) ∧
    (∀ (endpoint : String) (handleMap : List (Nat × EventNodeMetricMapping))
       (now : Int) (event : EventFieldList) (node : EventNodeMetricMapping)
       (k : String),
       mlook event.ClientHandle handleMap = some node →
       node.Fields.Nodup → node.Fields.length = event.EventFields.length →
       (k, GoVal.gNil) ∈ node.Fields.zip event.EventFields →
       ("Field " ++ k ++ " has nil value") ∈
         (processEvent endpoint handleMap now event).2) := by
  have part1 : ∀ (endpoint : String) (handleMap : List (Nat × EventNodeMetricMapping))
      (now : Int) (event : EventFieldList) (node : EventNodeMetricMapping),
      mlook event.ClientHandle handleMap = some node →
      node.Fields.Nodup → node.Fields.length = event.EventFields.length →
      ((processEvent endpoint handleMap now event).1.name = "opcua_event" ∧
       (processEvent endpoint handleMap now event).1.tags =
         [("node_id", node.NodeID), ("source", endpoint)] ∧
       (processEvent endpoint handleMap now event).1.time = now) ∧
      (processEvent endpoint handleMap now event).1.fields =
        (node.Fields.zip event.EventFields).filterMap eventEmitted ∧
      (processEvent endpoint handleMap now event).2 =
        (node.Fields.zip event.EventFields).filterMap eventWarn := by
    intro endpoint handleMap now event node hnode hnd hlen
    have hkeys : (node.Fields.zip event.EventFields).map Prod.fst = node.Fields :=
      List.map_fst_zip _ _ (le_of_eq hlen)
    have hzn : ((node.Fields.zip event.EventFields).map Prod.fst).Nodup := by
      rw [hkeys]
      exact hnd
    have hfold := foldl_eventFieldStep (node.Fields.zip event.EventFields) [] [] hzn
      (by intro k hk; simp)
    unfold processEvent
    rw [hnode]
    simp only [Option.getD_some]
    rw [hfold]
    refine ⟨⟨?_, ?_, ?_⟩, ?_, ?_⟩ <;> simp
  have hznOf : ∀ (event : EventFieldList) (node : EventNodeMetricMapping),
      node.Fields.Nodup → node.Fields.length = event.EventFields.length →
      ((node.Fields.zip event.EventFields).map Prod.fst).Nodup := by
    intro event node hnd hlen
    rw [List.map_fst_zip _ _ (le_of_eq hlen)]
    exact hnd
  refine ⟨part1, ?_, ?_, ?_⟩
  · intro endpoint handleMap now event node v hnode hnd hlen hmem hnil hlt
    obtain ⟨-, hfields, hwarns⟩ := part1 endpoint handleMap now event node hnode hnd hlen
    have hzn := hznOf event node hnd hlen
    constructor
    · rw [hfields]
      apply mlook_eq_none_of_not_mem
      intro hmemk
      simp only [List.mem_map] at hmemk
      obtain ⟨q, hqmem, hqk⟩ := hmemk
      rw [List.mem_filterMap] at hqmem
      obtain ⟨p, hpmem, hpe⟩ := hqmem
      have hp1 : p.1 = "Message" := by
        rw [← eventEmitted_key p q hpe, hqk]
      have hmlv : mlook "Message" (node.Fields.zip event.EventFields) = some v :=
        (mlook_eq_some_iff_mem _ _ _ hzn).mpr hmem
      have hmp : mlook "Message" (node.Fields.zip event.EventFields) = some p.2 := by
        rw [← hp1]
        exact (mlook_eq_some_iff_mem _ _ _ hzn).mpr hpmem
      have hp2 : p.2 = v := by
        rw [hmp] at hmlv
        injection hmlv
      have hpeq : p = ("Message", v) := Prod.ext hp1 hp2
      rw [hpeq, eventEmitted_message_none v hnil hlt] at hpe
      cases hpe
    · rw [hwarns, List.mem_filterMap]
      exact ⟨("Message", v), hmem, eventWarn_message v hnil hlt⟩
  · intro endpoint handleMap now event node k v hnode hnd hlen hmem hnil hk
    obtain ⟨-, hfields, -⟩ := part1 endpoint handleMap now event node hnode hnd hlen
    have hzn := hznOf event node hnd hlen
    rw [hfields]
    apply (mlook_eq_some_iff_mem _ _ _ (nodup_keys_filterMap_eventEmitted _ hzn)).mpr
    rw [List.mem_filterMap]
    exact ⟨(k, v), hmem, eventEmitted_other k v hnil hk⟩
  · intro endpoint handleMap now event node k hnode hnd hlen hmem
    obtain ⟨-, -, hwarns⟩ := part1 endpoint handleMap now event node hnode hnd hlen
    rw [hwarns, List.mem_filterMap]
    exact ⟨(k, .gNil), hmem, rfl⟩

/-- **C9, witness.** An event subscription with fields `Severity, Message` and
an incoming event whose `Message` value is a plain string (not localized
text): the emitted measurement omits `Message`, still carries
`Severity = 500`, records the warning, and is tagged with the node id and the
endpoint. -/
theorem c9_witness :
    mlook "Message" (processEvent "opc.tcp://srv"
        [(0, ⟨"ns=2;s=Press", ["Severity", "Message"]⟩)] 42
        ⟨0, [.gInt 500, .gString "oops"]⟩).1.fields = none ∧
    "Message field is not of type *ua.LocalizedText" ∈
      (processEvent "opc.tcp://srv"
        [(0, ⟨"ns=2;s=Press", ["Severity", "Message"]⟩)] 42
        ⟨0, [.gInt 500, .gString "oops"]⟩).2 ∧
    mlook "Severity" (processEvent "opc.tcp://srv"
        [(0, ⟨"ns=2;s=Press", ["Severity", "Message"]⟩)] 42
        ⟨0, [.gInt 500, .gString "oops"]⟩).1.fields = some (.gInt 500) ∧
    (processEvent "opc.tcp://srv"
        [(0, ⟨"ns=2;s=Press", ["Severity", "Message"]⟩)] 42
        ⟨0, [.gInt 500, .gString "oops"]⟩).1.tags =
      [("node_id", "ns=2;s=Press"), ("source", "opc.tcp://srv")] := by
  have h2 := c9_event_processing.2.1 "opc.tcp://srv"
    [(0, ⟨"ns=2;s=Press", ["Severity", "Message"]⟩)] 42
    ⟨0, [.gInt 500, .gString "oops"]⟩ ⟨"ns=2;s=Press", ["Severity", "Message"]⟩
    (.gString "oops") rfl (by decide) rfl (by decide) (by decide)
    (by intro t; simp)
  have h3 := c9_event_processing.2.2.1 "opc.tcp://srv"
    [(0, ⟨"ns=2;s=Press", ["Severity", "Message"]⟩)] 42
    ⟨0, [.gInt 500, .gString "oops"]⟩ ⟨"ns=2;s=Press", ["Severity", "Message"]⟩
    "Severity" (.gInt 500) rfl (by decide) rfl (by decide) (by decide) (by decide)
  have h1 := (c9_event_processing.1 "opc.tcp://srv"
    [(0, ⟨"ns=2;s=Press", ["Severity", "Message"]⟩)] 42
    ⟨0, [.gInt 500, .gString "oops"]⟩ ⟨"ns=2;s=Press", ["Severity", "Message"]⟩
    rfl (by decide) rfl).1.2.1
  exact ⟨h2.1, h2.2, h3, h1⟩

/-! ## C5, C6, C10: starting the data and event streams -/

/-- Externally observable actions of a stream start. -/
inductive StartEffect
  | connectAttempted
  | monitorCalled
  | processorStarted
deriving Repr, DecidableEq

/-- The outcomes the external protocol stack supplies during a start: the
connect/subscribe result, the batch `Monitor` call result and — on success —
the per-item status codes. -/
structure StreamEnv where
  connectError : Option String
  monitorError : Option String
  monitorResults : List Nat
deriving Repr, DecidableEq

/-- The fields of `subscribeClient` the start functions read. -/
structure SubscribeClientState where
  monitoredItemsReqs : List MonitoredItemCreateRequest
  eventItemsReqs : List MonitoredItemCreateRequest
  NodeMetricMapping : List NodeMetricMapping
  NodeIDs : List String
  ConnectFailBehavior : String
  Endpoint : String
  AdditionalValidStatusCodes : List Nat
deriving Repr, DecidableEq

/-- Result of a stream start: whether a (non-nil) channel was returned, the
returned error, the log lines and the observable effects. -/
structure StartResult where
  channel : Option Unit
  error : Option String
  logs : List String
  effects : List StartEffect
deriving Repr, DecidableEq

/-- Index and status code of the first non-good per-item registration result. -/
def firstBad (valid : List Nat) : List Nat → Option (Nat × Nat)
  | [] => none
  | c :: rest =>
    if StatusCodeOK valid c then
      match firstBad valid rest with
      | none => none
      | some ic => some (ic.1 + 1, ic.2)
    else some (0, c)

/-- The debug log identifying the first failing monitored item of the data
stream: the mapping's field name and the node id — or `63`, the `%v` rendering
of the fallback rune `'?'`, when the id list is shorter than the index. -/
def monitorFailLog (st : SubscribeClientState) (idx : Nat) : String :=
  "Failed to create monitored item for node " ++
    ((st.NodeMetricMapping.get? idx).map (fun m => m.Tag.FieldName)).getD "" ++
    " (" ++
    (if idx < st.NodeIDs.length then (st.NodeIDs.get? idx).getD "" else "63") ++ ")"

/-- `startStreamValues`: early return when no monitored-item requests exist;
connect (and subscribe) with the configured failure policy; batch `Monitor`
call; per-item status check — the first bad item is identified in a debug log
and fails the start with an error wrapping only the status code; on success
the processor is started and the pre-made data channel is returned. -/
def startStreamValues (st : SubscribeClientState) (env : StreamEnv) : StartResult :=
  if st.monitoredItemsReqs.length = 0 then
    { channel := none, error := none, logs := [], effects := [] }
  else
    match env.connectError with
    | some e =>
      if st.ConnectFailBehavior = "retry" then
        { channel := none, error := none,
          logs := ["Failed to connect to OPC UA server " ++ st.Endpoint ++
            ". Will attempt to connect again at the next interval: " ++ e],
          effects := [.connectAttempted] }
      else if st.ConnectFailBehavior = "ignore" then
        { channel := none, error := none,
          logs := ["Failed to connect to OPC UA server " ++ st.Endpoint ++
            ". Will not retry: " ++ e],
          effects := [.connectAttempted] }
      else
        { channel := none, error := some e, logs := [],
          effects := [.connectAttempted] }
    | none =>
      match env.monitorError with
      | some e =>
        { channel := none,
          error := some ("failed to start monitoring items: " ++ e),
          logs := [], effects := [.connectAttempted, .monitorCalled] }
      | none =>
        match firstBad st.AdditionalValidStatusCodes env.monitorResults with
        | some ic =>
          { channel := none,
            error := some ("creating monitored item failed with status code: " ++
              statusCodeText ic.2),
            logs := [monitorFailLog st ic.1],
            effects := [.connectAttempted, .monitorCalled] }
        | none =>
          { channel := some (), error := none, logs := [],
            effects := [.connectAttempted, .monitorCalled, .processorStarted] }

/-- `startStreamEvents`: same early return and connect policy; a bad per-item
result fails the start with an error wrapping only the status code and no
item-identifying log; on success the event metric channel is created and the
processor started. -/
def startStreamEvents (st : SubscribeClientState) (env : StreamEnv) : StartResult :=
  if st.eventItemsReqs.length = 0 then
    { channel := none, error := none, logs := [], effects := [] }
  else
    match env.connectError with
    | some e =>
      if st.ConnectFailBehavior = "retry" then
        { channel := none, error := none,
          logs := ["Failed to connect to OPC UA server " ++ st.Endpoint ++
            ". Will attempt to connect again at the next interval: " ++ e],
          effects := [.connectAttempted] }
      else if st.ConnectFailBehavior = "ignore" then
        { channel := none, error := none,
          logs := ["Failed to connect to OPC UA server " ++ st.Endpoint ++
            ". Will not retry: " ++ e],
          effects := [.connectAttempted] }
      else
        { channel := none, error := some e, logs := [],
          effects := [.connectAttempted] }
    | none =>
      match env.monitorError with
      | some e =>
        { channel := none,
          error := some ("failed to start monitoring event stream: " ++ e),
          logs := [], effects := [.connectAttempted, .monitorCalled] }
      | none =>
        match firstBad st.AdditionalValidStatusCodes env.monitorResults with
        | some ic =>
          { channel := none,
            error :=
              some ("creating monitored event streaming item failed with status code: " ++
                statusCodeText ic.2),
            logs := [], effects := [.connectAttempted, .monitorCalled] }
        | none =>
          { channel := some (), error := none, logs := [],
            effects := [.connectAttempted, .monitorCalled, .processorStarted] }

/-- **C5.** When the connect attempt of a value or event stream start fails:
policy `retry` and policy `ignore` both return a nil channel and a nil error;
any other policy (including `error`) returns a nil channel and the connect
error. -/
theorem c5_connect_fail_behavior :
    ∀ (st : SubscribeClientState) (env : StreamEnv) (e : String),
      env.connectError = some e →
      ((st.ConnectFailBehavior = "retry" ∨ st.ConnectFailBehavior = "ignore") →
        (st.monitoredItemsReqs ≠ [] →
          (startStreamValues st env).channel = none ∧
          (startStreamValues st env).error = none) ∧
        (st.eventItemsReqs ≠ [] →
          (startStreamEvents st env).channel = none ∧
          (startStreamEvents st env).error = none)) ∧
      (st.ConnectFailBehavior ≠ "retry" → st.ConnectFailBehavior ≠ "ignore" →
        (st.monitoredItemsReqs ≠ [] →
          (startStreamValues st env).channel = none ∧
          (startStreamValues st env).error = some e) ∧
        (st.eventItemsReqs ≠ [] →
          (startStreamEvents st env).channel = none ∧
          (startStreamEvents st env).error = some e)) := by
  intro st env e hconn
  constructor
  · intro hb
    constructor
    · intro hne
      have hlen : ¬ (st.monitoredItemsReqs.length = 0) :=
        fun h => hne (List.length_eq_zero.mp h)
      rcases hb with hb | hb <;>
        simp [startStreamValues, hconn, hb, hlen]
    · intro hne
      have hlen : ¬ (st.eventItemsReqs.length = 0) :=
        fun h => hne (List.length_eq_zero.mp h)
      rcases hb with hb | hb <;>
        simp [startStreamEvents, hconn, hb, hlen]
  · intro hb1 hb2
    constructor
    · intro hne
      have hlen : ¬ (st.monitoredItemsReqs.length = 0) :=
        fun h => hne (List.length_eq_zero.mp h)
      simp [startStreamValues, hconn, hb1, hb2, hlen]
    · intro hne
      have hlen : ¬ (st.eventItemsReqs.length = 0) :=
        fun h => hne (List.length_eq_zero.mp h)
      simp [startStreamEvents, hconn, hb1, hb2, hlen]

/-- A two-item subscribe client used by the stream-start theorems. -/
def c6state : SubscribeClientState :=
  { monitoredItemsReqs :=
      [{ NodeID := "ns=3;s=A", ClientHandle := 0,
         RequestedParameters :=
           { SamplingInterval := 0, QueueSize := 10, DiscardOldest := true,
             Filter := none } },
       { NodeID := "ns=3;s=B", ClientHandle := 1,
         RequestedParameters :=
           { SamplingInterval := 0, QueueSize := 10, DiscardOldest := true,
             Filter := none } }],
    eventItemsReqs :=
      [{ NodeID := "ns=3;s=A", ClientHandle := 0,
         RequestedParameters :=
           { SamplingInterval := 0, QueueSize := 10, DiscardOldest := true,
             Filter := none } },
       { NodeID := "ns=3;s=B", ClientHandle := 1,
         RequestedParameters :=
           { SamplingInterval := 0, QueueSize := 10, DiscardOldest := true,
             Filter := none } }],
    NodeMetricMapping := [zeroNMM, zeroNMM],
    NodeIDs := ["ns=3;s=A", "ns=3;s=B"],
    ConnectFailBehavior := "error", Endpoint := "ep",
    AdditionalValidStatusCodes := [] }

/-- **C5, witness.** The three policies at a failing connect on the two-item
client. -/
theorem c5_witness :
    (startStreamValues { c6state with ConnectFailBehavior := "retry" }
        ⟨some "boom", none, []⟩).error = none ∧
    (startStreamEvents { c6state with ConnectFailBehavior := "ignore" }
        ⟨some "boom", none, []⟩).error = none ∧
    (startStreamValues c6state ⟨some "boom", none, []⟩).error = some "boom" ∧
    (startStreamValues c6state ⟨some "boom", none, []⟩).channel = none := by
  have h1 := ((c5_connect_fail_behavior
    { c6state with ConnectFailBehavior := "retry" } ⟨some "boom", none, []⟩
    "boom" rfl).1 (Or.inl rfl)).1 (by decide)
  have h2 := ((c5_connect_fail_behavior
    { c6state with ConnectFailBehavior := "ignore" } ⟨some "boom", none, []⟩
    "boom" rfl).1 (Or.inr rfl)).2 (by decide)
  have h3 := ((c5_connect_fail_behavior c6state ⟨some "boom", none, []⟩
    "boom" rfl).2 (by decide) (by decide)).1 (by decide)
  exact ⟨h1.2, h2.2, h3.2, h3.1⟩

/-- **C6, counterexample.** Two registration responses that fail at different
items (index 0 versus index 1, same bad status) produce identical start
errors, for the data stream and for the event stream alike: the returned error
wraps only the status code and cannot identify which item failed (the
item-identifying text, with its placeholder fallback, goes to a debug log
only, and only for the data stream). -/
theorem c6_counterexample :
    (startStreamValues c6state ⟨none, none, [2147483648, 0]⟩).error =
      (startStreamValues c6state ⟨none, none, [0, 2147483648]⟩).error ∧
    (startStreamValues c6state ⟨none, none, [2147483648, 0]⟩).error ≠ none ∧
    firstBad [] [2147483648, 0] = some (0, 2147483648) ∧
    firstBad [] [0, 2147483648] = some (1, 2147483648) ∧
    (startStreamEvents c6state ⟨none, none, [2147483648, 0]⟩).error =
      (startStreamEvents c6state ⟨none, none, [0, 2147483648]⟩).error ∧
    (startStreamEvents c6state ⟨none, none, [0, 2147483648]⟩).logs = [] := by
  exact ⟨by decide, by decide, by decide, by decide, by decide, by decide⟩

/-- **C6 (amended).** A non-good per-item registration result fails the whole
start with a nil channel and an error wrapping the failing status code; for
the data stream the failing item is additionally identified in a debug log
(falling back to the placeholder `63`, the `%v` rendering of `'?'`, when the
node-id list is shorter than the failing index), while the event stream logs
nothing item-specific; when every result is good, the start returns a non-nil
metric channel and no error. -/
theorem c6_registration_failure :
    (∀ (st : SubscribeClientState) (env : StreamEnv) (idx code : Nat),
       st.monitoredItemsReqs ≠ [] →
       env.connectError = none → env.monitorError = none →
       firstBad st.AdditionalValidStatusCodes env.monitorResults = some (idx, code) →
       (startStreamValues st env).channel = none ∧
       (startStreamValues st env).error =
         some ("creating monitored item failed with status code: " ++
           statusCodeText code) ∧
       (startStreamValues st env).logs = [monitorFailLog st idx]) ∧
    (∀ (st : SubscribeClientState) (env : StreamEnv) (idx code : Nat),
       st.eventItemsReqs ≠ [] →
       env.connectError = none → env.monitorError = none →
       firstBad st.AdditionalValidStatusCodes env.monitorResults = some (idx, code) →
       (startStreamEvents st env).channel = none ∧
       (startStreamEvents st env).error =
         some ("creating monitored event streaming item failed with status code: " ++
           statusCodeText code) ∧
       (startStreamEvents st env).logs = []) ∧
    (∀ (st : SubscribeClientState) (env : StreamEnv),
       st.monitoredItemsReqs ≠ [] →
       env.connectError = none → env.monitorError = none →
       firstBad st.AdditionalValidStatusCodes env.monitorResults = none →
       (startStreamValues st env).channel = some () ∧
       (startStreamValues st env).error = none) ∧
    (∀ (st : SubscribeClientState) (env : StreamEnv),
       st.eventItemsReqs ≠ [] →
       env.connectError = none → env.monitorError = none →
       firstBad st.AdditionalValidStatusCodes env.monitorResults = none →
       (startStreamEvents st env).channel = some () ∧
       (startStreamEvents st env).error = none) ∧
    (∀ (st : SubscribeClientState) (idx : Nat),
       st.NodeIDs.length ≤ idx →
       monitorFailLog st idx =
         "Failed to create monitored item for node " ++
           ((st.NodeMetricMapping.get? idx).map (fun m => m.Tag.FieldName)).getD "" ++
           " (" ++ "63" ++ ")") := by
  refine ⟨?_, ?_, ?_, ?_, ?_⟩
  · intro st env idx code hne hconn hmon hfb
    have hlen : ¬ (st.monitoredItemsReqs.length = 0) :=
      fun h => hne (List.length_eq_zero.mp h)
    simp [startStreamValues, hconn, hmon, hfb, hlen]
  · intro st env idx code hne hconn hmon hfb
    have hlen : ¬ (st.eventItemsReqs.length = 0) :=
      fun h => hne (List.length_eq_zero.mp h)
    simp [startStreamEvents, hconn, hmon, hfb, hlen]
  · intro st env hne hconn hmon hfb
    have hlen : ¬ (st.monitoredItemsReqs.length = 0) :=
      fun h => hne (List.length_eq_zero.mp h)
    simp [startStreamValues, hconn, hmon, hfb, hlen]
  · intro st env hne hconn hmon hfb
    have hlen : ¬ (st.eventItemsReqs.length = 0) :=
      fun h => hne (List.length_eq_zero.mp h)
    simp [startStreamEvents, hconn, hmon, hfb, hlen]
  · intro st idx h
    unfold monitorFailLog
    rw [if_neg (not_lt.mpr h)]

/-- **C6, witness.** A failing first item on the two-item client (error
naming the status code, identifying log for the data stream, empty logs for
the event stream), the all-good start, and the placeholder log beyond the
node-id list. -/
theorem c6_witness :
    (startStreamValues c6state ⟨none, none, [2147483648, 0]⟩).error =
      some ("creating monitored item failed with status code: " ++
        statusCodeText 2147483648) ∧
    (startStreamValues c6state ⟨none, none, [2147483648, 0]⟩).logs =
      [monitorFailLog c6state 0] ∧
    (startStreamEvents c6state ⟨none, none, [2147483648, 0]⟩).logs = [] ∧
    (startStreamValues c6state ⟨none, none, [0, 0]⟩).channel = some () ∧
    (startStreamValues c6state ⟨none, none, [0, 0]⟩).error = none ∧
    monitorFailLog c6state 5 =
      "Failed to create monitored item for node " ++
        ((c6state.NodeMetricMapping.get? 5).map (fun m => m.Tag.FieldName)).getD "" ++
        " (" ++ "63" ++ ")" := by
  have h1 := c6_registration_failure.1 c6state ⟨none, none, [2147483648, 0]⟩ 0
    2147483648 (by decide) rfl rfl (by decide)
  have h2 := c6_registration_failure.2.1 c6state ⟨none, none, [2147483648, 0]⟩ 0
    2147483648 (by decide) rfl rfl (by decide)
  have h3 := c6_registration_failure.2.2.1 c6state ⟨none, none, [0, 0]⟩
    (by decide) rfl rfl (by decide)
  have h5 := c6_registration_failure.2.2.2.2 c6state 5 (by decide)
  exact ⟨h1.2.1, h1.2.2, h2.2.2, h3.1, h3.2, h5⟩

/-- **C10.** A client with no monitored-item requests of a given kind returns
a nil channel and a nil error from the corresponding start immediately, with
no log, no connect or subscribe attempt, no registration and no processor
start, whatever the protocol stack would have answered. -/
theorem c10_empty_requests :
    ∀ (st : SubscribeClientState) (env : StreamEnv),
      (st.monitoredItemsReqs = [] →
        startStreamValues st env =
          { channel := none, error := none, logs := [], effects := [] }) ∧
      (st.eventItemsReqs = [] →
        startStreamEvents st env =
          { channel := none, error := none, logs := [], effects := [] }) := by
  intro st env
  constructor
  · intro h
    unfold startStreamValues
    rw [if_pos (by rw [h]; rfl)]
  · intro h
    unfold startStreamEvents
    rw [if_pos (by rw [h]; rfl)]

/-- **C10, witness.** The empty client ignores even a failing environment:
both starts return nil channel, nil error and perform no action. -/
theorem c10_witness :
    startStreamValues { c6state with monitoredItemsReqs := [] }
        ⟨some "down", some "down", [2147483648]⟩ =
      { channel := none, error := none, logs := [], effects := [] } ∧
    startStreamEvents { c6state with eventItemsReqs := [] }
        ⟨some "down", some "down", [2147483648]⟩ =
      { channel := none, error := none, logs := [], effects := [] } := by
  exact ⟨(c10_empty_requests { c6state with monitoredItemsReqs := [] }
      ⟨some "down", some "down", [2147483648]⟩).1 rfl,
    (c10_empty_requests { c6state with eventItemsReqs := [] }
      ⟨some "down", some "down", [2147483648]⟩).2 rfl⟩

end OpcuaSpec
